import Mathlib

/-!
Verification of the conversational-agent orchestration engine
(`AgentOrchestrator`, `ToolRegistry`, `PromptBuilder`, repositories).

The TypeScript sources are shallowly embedded as pure Lean functions.
External effects (the LLM provider, the HTTP transport, `JSON.parse`,
Mongo queries) are modelled as explicit oracle parameters or as pure
functions over in-memory lists of documents.  JavaScript dynamic values
that flow through the code (LLM-produced JSON, tool arguments, action
payloads) are modelled by the `Json` inductive below, together with
JavaScript truthiness.
-/

namespace Sam

/-- Model of a JavaScript/JSON value.  `null` also stands for
`undefined`: the embedded code only ever distinguishes them through
truthiness or `== null`, which identify the two. -/
inductive Json where
  | null
  | bool (b : Bool)
  | num (q : ℚ)
  | str (s : String)
  | arr (elems : List Json)
  | obj (fields : List (String × Json))

/-- JavaScript truthiness of a value (`if (v)`).  `NaN` is not
representable in the model, all other JS falsy values are covered. -/
def Json.truthy : Json → Bool
  | .null => false
  | .bool b => b
  | .num q => decide (q ≠ 0)
  | .str s => decide (s ≠ "")
  | .arr _ => true
  | .obj _ => true

/-- Property read `v.key`: `none` models `undefined`.  Reading a
property of a non-object yields `undefined` (the one throwing case,
reading on `null`, is always wrapped in `try` in the embedded code and
lands in the same fallback as `undefined`). -/
def Json.get : Json → String → Option Json
  | .obj fields, key => (fields.find? (fun f => f.1 = key)).map (·.2)
  | _, _ => none

/-- String conversion `String(v)` / template-literal interpolation.
Number, array and object rendering is approximated; the claims never
inspect the rendered text of non-string values. -/
def Json.toStr : Json → String
  | .null => "null"
  | .bool b => if b then "true" else "false"
  | .num q => toString q
  | .str s => s
  | .arr _ => "[array]"
  | .obj _ => "[object Object]"

/-- JavaScript `a || b` on dynamic values. -/
def jsOr (a b : Json) : Json := if a.truthy then a else b

/-- JavaScript `a || b` where `a` is an optional string field
(`undefined` and `""` both select `b`). -/
def jsOrS (a : Option String) (b : String) : String :=
  match a with
  | some s => if s = "" then b else s
  | none => b

/-- Property write `obj.key = v`: overwrites the existing entry in
place or appends a new one, as JS property assignment does.  Writes on
non-objects are dropped (they never occur in the embedded code). -/
def Json.set : Json → String → Json → Json
  | .obj fields, key, v =>
      if fields.any (fun f => f.1 = key) then
        .obj (fields.map (fun f => if f.1 = key then (f.1, v) else f))
      else
        .obj (fields ++ [(key, v)])
  | j, _, _ => j

/-- Left brace character (used when scanning path templates). -/
def lbrace : Char := Char.ofNat 123

/-- Right brace character. -/
def rbrace : Char := Char.ofNat 125

/-! ## Agent configuration (`src/db/agentConfigRepo.ts`) -/

/-- The `llm` block of an `AgentConfig` (provider, model; credentials and
sampling parameters are not consulted by the embedded functions). -/
structure LLMConfig where
  provider : String
  model : String
deriving DecidableEq

/-- A `ToolConfig` entry (`{enabled, type?}`). -/
structure ToolConfig where
  enabled : Bool
  type : Option String := none
deriving DecidableEq

/-- Declarative JSON-schema parameters of a tool
(`{type:'object', properties, required?}`). -/
structure ToolParameters where
  properties : List (String × Json) := []
  required : Option (List String) := none

/-- A tenant-declared custom tool.  `enabled` is `Option Bool` because
the registry defends against documents where the flag is missing or not
a boolean: it is advertised only when the stored value is exactly
`true`. -/
structure CustomTool where
  name : String
  baseUrl : String
  path : Option String := none
  method : Option String := none
  apiKeyEncrypted : Option String := none
  enabled : Option Bool := none
  description : Option String := none
  parameters : Option ToolParameters := none

/-- One knowledge source (`{source, vectorIndex?, apiUrl?, apiKeyEncrypted?}`). -/
structure KnowledgeSource where
  source : String
  vectorIndex : Option String := none
  apiUrl : Option String := none
  apiKeyEncrypted : Option String := none
deriving DecidableEq

/-- The `knowledge` map of an `AgentConfig`. -/
structure KnowledgeConfig where
  companyInfo : Option KnowledgeSource := none
  products : Option KnowledgeSource := none
deriving DecidableEq

/-- The `tools` block of an `AgentConfig`. -/
structure ToolsBlock where
  mode : Option String := none
  searchProduct : Option ToolConfig := none
  addToCart : Option ToolConfig := none
  getOrder : Option ToolConfig := none
  custom : Option (List CustomTool) := none

/-- An agent configuration, restricted to the fields the embedded
functions read. -/
structure AgentConfig where
  tenantId : String
  agentId : String
  llm : LLMConfig
  knowledge : KnowledgeConfig
  tools : ToolsBlock

/-! ## Tool advertisement (`ToolRegistry.getToolDefinitions`) -/

/-- A tool definition advertised to the model. -/
structure ToolDefinition where
  name : String
  description : String
  parameters : ToolParameters

/-- Advertised schema of the `search_product` core tool. -/
def searchProductDef : ToolDefinition :=
  { name := "search_product"
    description := "Busca productos en el catálogo por nombre, descripción o categoría"
    parameters :=
      { properties :=
          [("query", Json.obj [("type", Json.str "string"),
              ("description", Json.str "Término de búsqueda")]),
           ("limit", Json.obj [("type", Json.str "number"),
              ("description", Json.str "Número máximo de resultados (default: 10)")])]
        required := some ["query"] } }

/-- Advertised schema of the `add_to_cart` core tool. -/
def addToCartDef : ToolDefinition :=
  { name := "add_to_cart"
    description := "Agrega un producto al carrito del usuario"
    parameters :=
      { properties :=
          [("productId", Json.obj [("type", Json.str "string"),
              ("description", Json.str "ID del producto a agregar")]),
           ("quantity", Json.obj [("type", Json.str "number"),
              ("description", Json.str "Cantidad a agregar (default: 1)")])]
        required := some ["productId"] } }

/-- Advertised schema of the `get_order` core tool. -/
def getOrderDef : ToolDefinition :=
  { name := "get_order"
    description := "Obtiene información de una orden. Si no tienes el número de orden, pregunta al usuario por su email, teléfono o número de orden antes de usar esta herramienta."
    parameters :=
      { properties :=
          [("orderId", Json.obj [("type", Json.str "string"),
              ("description", Json.str "ID de la orden (ObjectId)")]),
           ("orderNumber", Json.obj [("type", Json.str "string"),
              ("description", Json.str "Número de orden (ej: \"17405329519752tYdTn9\")")]),
           ("email", Json.obj [("type", Json.str "string"),
              ("description", Json.str "Email del cliente para buscar órdenes")]),
           ("phone", Json.obj [("type", Json.str "string"),
              ("description", Json.str "Teléfono del cliente para buscar órdenes")])]
        required := none } }

/-- Advertised schema of the `show_product` core tool. -/
def showProductDef : ToolDefinition :=
  { name := "show_product"
    description := "Muestra detalles de un producto específico"
    parameters :=
      { properties :=
          [("productId", Json.obj [("type", Json.str "string"),
              ("description", Json.str "ID del producto")])]
        required := some ["productId"] } }

/-- Advertised schema of the `rag_query` core tool. -/
def ragQueryDef : ToolDefinition :=
  { name := "rag_query"
    description := "Consulta información usando RAG (Retrieval Augmented Generation)"
    parameters :=
      { properties :=
          [("query", Json.obj [("type", Json.str "string"),
              ("description", Json.str "Consulta a realizar")]),
           ("source", Json.obj [("type", Json.str "string"),
              ("description", Json.str "Fuente de conocimiento: companyInfo o products"),
              ("enum", Json.arr [Json.str "companyInfo", Json.str "products"])])]
        required := some ["query"] } }

/-- Effective tools mode: `agentConfig.tools.mode || 'default'`. -/
def toolModeOf (cfg : AgentConfig) : String := jsOrS cfg.tools.mode "default"

/-- Truthiness of `agentConfig.tools.X?.enabled` for an optional
`ToolConfig`. -/
def toolConfigEnabled (tc : Option ToolConfig) : Bool :=
  match tc with
  | some c => c.enabled
  | none => false

/-- The core-tool definitions pushed by `getToolDefinitions` when the
mode admits core tools, in source order. -/
def coreToolDefinitions (cfg : AgentConfig) : List ToolDefinition :=
  (if toolConfigEnabled cfg.tools.searchProduct then [searchProductDef] else [])
    ++ (if toolConfigEnabled cfg.tools.addToCart then [addToCartDef] else [])
    ++ (if toolConfigEnabled cfg.tools.getOrder then [getOrderDef] else [])
    ++ (if toolConfigEnabled cfg.tools.searchProduct then [showProductDef] else [])
    ++ (if (cfg.knowledge.companyInfo.map (·.source) = some "rag")
           ∨ (cfg.knowledge.products.map (·.source) = some "rag")
        then [ragQueryDef] else [])

/-- Definition derived from one custom-tool declaration
(`description || Custom tool: name`, `parameters || {type:'object',properties:{}}`). -/
def customToolDefinition (t : CustomTool) : ToolDefinition :=
  { name := t.name
    description := jsOrS t.description ("Custom tool: " ++ t.name)
    parameters := t.parameters.getD { properties := [], required := none } }

/-- The custom-tool definitions pushed by `getToolDefinitions`: entries
missing `name` or `baseUrl` are skipped, and only entries whose
`enabled` field is exactly `true` are advertised. -/
def customToolDefinitions (customs : List CustomTool) : List ToolDefinition :=
  customs.filterMap (fun t =>
    if t.name = "" ∨ t.baseUrl = "" then none
    else if t.enabled = some true then some (customToolDefinition t)
    else none)

/-- The custom part of the advertisement, including its mode gate
(`(mode === 'custom' || mode === 'hybrid') && agentConfig.tools.custom`). -/
def customAdvertised (cfg : AgentConfig) : List ToolDefinition :=
  if (toolModeOf cfg = "custom" ∨ toolModeOf cfg = "hybrid")
      ∧ cfg.tools.custom.isSome then
    customToolDefinitions (cfg.tools.custom.getD [])
  else []

/-- `ToolRegistry.getToolDefinitions`: core tools only in mode
`default`/`hybrid`, custom tools only in mode `custom`/`hybrid`. -/
def getToolDefinitions (cfg : AgentConfig) : List ToolDefinition :=
  (if toolModeOf cfg = "default" ∨ toolModeOf cfg = "hybrid"
   then coreToolDefinitions cfg else [])
    ++ customAdvertised cfg

/-! ## Tool results and agent responses -/

/-- A `ToolResult` as returned by the registry's executors.
`needsUserInput` is `Option Bool` because the field is optional in the
interface; the orchestrator tests it for truthiness. -/
structure ToolResult where
  success : Bool
  data : Option Json := none
  error : Option String := none
  needsUserInput : Option Bool := none
  question : Option String := none

/-- The `action` object of an `AgentResponse`.  `type` is kept as a
dynamic value: the parser passes the model-supplied `action` through,
so `type` can be `null` (also modelling a missing field) or any JSON
value. -/
structure ActionObj where
  type : Json
  payload : Json

/-- The action `{type: null, payload: {}}`. -/
def nullAction : ActionObj := { type := Json.null, payload := Json.obj [] }

/-- An `AgentResponse` (the `meta` block carries token accounting,
latency and cost; it is filled from provider usage numbers and wall
time and never feeds back into message or action shaping, so it is not
modelled here). -/
structure AgentResponse where
  message : String
  audio_description : String
  action : ActionObj

/-- One tool call requested by the model. -/
structure LLMToolCall where
  name : String
  arguments : Json

/-- A provider reply, as normalised by the LLM router. -/
structure LLMResponse where
  content : String
  toolCalls : List LLMToolCall := []

/-- Result of one orchestrated turn: the shaped response plus how many
provider round-trips were made while producing it. -/
structure TurnResult where
  response : AgentResponse
  providerCalls : Nat

/-- Index of the last occurrence of a character in a list. -/
def lastIdxOf (cs : List Char) (c : Char) : Option Nat :=
  match cs.findIdx? (fun x => x = c), (cs.reverse.findIdx? (fun x => x = c)) with
  | some _, some j => some (cs.length - 1 - j)
  | _, _ => none

/-- The regex extraction `content.match(/\x7b[\s\S]*\x7d/)`: the greedy
match runs from the first left brace to the last right brace, and
matches only when that right brace comes after the brace where the
match starts. -/
def extractJsonBlob (content : String) : Option String :=
  let cs := content.data
  match cs.findIdx? (fun x => x = lbrace), lastIdxOf cs rbrace with
  | some i, some j =>
      if i < j then some (String.mk ((cs.drop i).take (j - i + 1))) else none
  | _, _ => none

/-- `AgentOrchestrator.generateAudioDescription`: truncate long
messages to 197 characters plus an ellipsis and append the action type
when one is present. -/
def generateAudioDescription (message : String) (action : Option ActionObj := none) :
    String :=
  let description :=
    if message.length > 200 then (String.mk (message.data.take 197)) ++ "..." else message
  match action with
  | some a =>
      if a.type.truthy then description ++ " Acción: " ++ a.type.toStr ++ "." else description
  | none => description

/-- Read the model-supplied `action` object into an `ActionObj`
(property reads `action.type` / `action.payload`; missing fields read
as `undefined`, modelled by `Json.null`). -/
def ActionObj.ofJson (a : Json) : ActionObj :=
  { type := (a.get "type").getD Json.null
    payload := (a.get "payload").getD Json.null }

/-- The fallback response used when the reply holds no JSON blob or the
blob does not parse: the raw reply text becomes the message. -/
def fallbackResponse (content : String) : AgentResponse :=
  { message := content
    audio_description := generateAudioDescription content
    action := nullAction }

/-- `AgentOrchestrator.parseLLMResponse`.  `jp` is the oracle modelling
`JSON.parse` on the extracted blob; `none` models a thrown parse error.
When the parse yields a non-object, every property read is `undefined`
and the result coincides with the fallback (the one throwing case,
`null`, is caught and also yields the fallback). -/
def parseLLMResponse (jp : String → Option Json) (content : String) : AgentResponse :=
  match extractJsonBlob content with
  | some blob =>
      match jp blob with
      | some parsed =>
          let message :=
            match parsed.get "message" with
            | some v => if v.truthy then v.toStr else content
            | none => content
          let audio :=
            match parsed.get "audio_description" with
            | some v => if v.truthy then v.toStr else generateAudioDescription message
            | none => generateAudioDescription message
          let action :=
            match parsed.get "action" with
            | some v => if v.truthy then ActionObj.ofJson v else nullAction
            | none => nullAction
          { message := message, audio_description := audio, action := action }
      | none => fallbackResponse content
  | none => fallbackResponse content

/-! ## Orchestrator: inline-action execution and tool narration -/

/-- Truthiness of an optional boolean field (`if (x.flag)`). -/
def optBoolTruthy (b : Option Bool) : Bool := b.getD false

/-- JavaScript `a || b` on plain strings (`""` selects `b`). -/
def jsOrStr (a b : String) : String := if a = "" then b else a

/-- JavaScript `a || b` where `a` is an optional dynamic field. -/
def jsOrJ (d : Option Json) (b : Json) : Json :=
  match d with
  | some v => jsOr v b
  | none => b

/-- Read `data.key` through an optional `data`. -/
def dataField (d : Option Json) (key : String) : Option Json :=
  d.bind (fun j => j.get key)

/-- Elements of a dynamic value treated as an array (the embedded code
only maps over values that are arrays; a non-array would throw inside
the surrounding `try`). -/
def Json.asArr : Json → List Json
  | .arr xs => xs
  | _ => []

/-- Word character of the path-parameter regex (`\w`). -/
def isWordChar (c : Char) : Bool := c.isAlphanum || c = '_'

/-- First path parameter of a template: the regex match
`path.match(/\x7b(\w+)\x7d/)` returning the captured name. -/
def firstPathParam : List Char → Option String
  | [] => none
  | c :: rest =>
      if c = lbrace then
        let w := rest.takeWhile isWordChar
        match rest.dropWhile isWordChar with
        | d :: _ =>
            if d = rbrace ∧ w ≠ [] then some (String.mk w) else firstPathParam rest
        | [] => firstPathParam rest
      else firstPathParam rest

/-- `ToolRegistry.findCustomTool` (also exposed as
`findCustomToolByName`): first declaration matching the name, and only
when its `enabled` field is exactly `true`. -/
def findCustomTool (toolName : String) (cfg : AgentConfig) : Option CustomTool :=
  match cfg.tools.custom with
  | none => none
  | some customs =>
      match customs.find? (fun t => t.name = toolName) with
      | some t => if t.enabled = some true then some t else none
      | none => none

/-- The optional-chaining conversion `v?.toString()`: `undefined`/`null`
pass through, anything else is stringified. -/
def optChainToString (v : Option Json) : Json :=
  match v with
  | some Json.null => Json.null
  | some v => Json.str v.toStr
  | none => Json.null

/-- Product back-reference id used for anaphora:
`p._id?.toString() || p.id || p.slug`. -/
def productRefId (p : Json) : Json :=
  jsOr (optChainToString (p.get "_id"))
    (jsOr ((p.get "id").getD Json.null) ((p.get "slug").getD Json.null))

/-- Payload filling for `add_to_cart`/`show_product` inline actions:
when the payload has no truthy `productId` and prior search results
exist, the first prior result supplies the id. -/
def fillProductId (payload : Json) (lastSearchResults : List Json) : Json :=
  if ((payload.get "productId").getD Json.null).truthy then payload
  else
    match lastSearchResults with
    | p :: _ => payload.set "productId" (productRefId p)
    | [] => payload

/-- Payload mapping for inline custom-tool actions: when the payload
carries a truthy `query` and the tool's path names a first parameter
other than `query`, the query value is copied under that name. -/
def mapCustomPayload (ct : CustomTool) (payload : Json) : Json :=
  let qv := (payload.get "query").getD Json.null
  if qv.truthy then
    match ct.path with
    | some p =>
        if p ≠ "" then
          match firstPathParam p.data with
          | some paramName =>
              if paramName ≠ "query" then payload.set paramName qv else payload
          | none => payload
        else payload
    | none => payload
  else payload

/-- The short-circuit response when an executed tool signals
`needsUserInput`: the tool's question becomes the message and no action
is emitted. -/
def needsInputResponse (toolResult : ToolResult) (parsed : AgentResponse) : AgentResponse :=
  { message := jsOrS toolResult.question
      (jsOrStr parsed.message "Necesito más información para ayudarte.")
    audio_description := generateAudioDescription
      (jsOrS toolResult.question "Necesito más información")
    action := nullAction }

/-- The response when the inline tool execution failed. -/
def toolFailureResponse (toolResult : ToolResult) (actionType : Json) : AgentResponse :=
  { message := jsOrS toolResult.error
      ("No pude ejecutar la acción " ++ actionType.toStr ++ ". Por favor, intenta de nuevo.")
    audio_description := generateAudioDescription ("Error al ejecutar " ++ actionType.toStr)
    action := nullAction }

/-- Rendering of `n.toFixed(2)` for prices (decimal rounding; the
floating-point and negative-number nuances of JS formatting are not
modelled — no claim inspects the digits). -/
def toFixed2 (q : ℚ) : String :=
  let n : Int := Int.floor (q * 100 + 1/2)
  toString (n / 100) ++ "." ++ (if (n % 100).natAbs < 10 then "0" else "") ++ toString (n % 100).natAbs

/-- Price shown for one search hit:
`p.price?.regular || p.price?.sale || p.price || 'N/A'`. -/
def productLinePrice (p : Json) : Json :=
  let priceObj := (p.get "price").getD Json.null
  jsOr ((priceObj.get "regular").getD Json.null)
    (jsOr ((priceObj.get "sale").getD Json.null) (jsOr priceObj (Json.str "N/A")))

/-- One line of the search-result enumeration. -/
def productDisplayLine (idx : Nat) (p : Json) : String :=
  let priceStr :=
    match productLinePrice p with
    | Json.num q => "S/ " ++ toFixed2 q
    | v => v.toStr
  toString (idx + 1) ++ ". "
    ++ (jsOr (jsOr ((p.get "title").getD Json.null) ((p.get "name").getD Json.null))
        (Json.str "Producto sin nombre")).toStr
    ++ " - " ++ priceStr

/-- The `count` used by the inline search branch:
`toolResult.data.count || products.length` (modelled numerically). -/
def searchCount (d : Option Json) (products : List Json) : ℚ :=
  match dataField d "count" with
  | some (Json.num q) => if q ≠ 0 then q else (products.length : ℚ)
  | _ => (products.length : ℚ)

/-- Message enumerating up to five found products. -/
def searchFoundMessage (count : ℚ) (products : List Json) : String :=
  let productList :=
    String.intercalate "\n" ((products.take 5).enum.map (fun e => productDisplayLine e.1 e.2))
  "Encontré " ++ toString count ++ " producto" ++ (if count > 1 then "s" else "")
    ++ ":\n\n" ++ productList
    ++ (if count > 5 then "\n\n... y " ++ toString (count - 5) ++ " más." else "")

/-- One line of the order summary. -/
def orderDisplayLine (idx : Nat) (p : Json) : String :=
  toString (idx + 1) ++ ". " ++ ((p.get "title").getD Json.null).toStr
    ++ " (x" ++ ((p.get "qty").getD Json.null).toStr ++ ") - S/ "
    ++ ((p.get "valid_price").getD Json.null).toStr

/-- Status display `orderData.X?.typeStatus || 'N/A'`. -/
def statusDisplay (data : Json) (key : String) : String :=
  (jsOr ((((data.get key).getD Json.null).get "typeStatus").getD Json.null)
    (Json.str "N/A")).toStr

/-- The order summary message built by the inline `get_order` branch. -/
def getOrderMessage (data : Json) : String :=
  let productList :=
    match data.get "products" with
    | some (Json.arr ps) =>
        jsOrStr (String.intercalate "\n" (ps.enum.map (fun e => orderDisplayLine e.1 e.2)))
          "Sin productos"
    | _ => "Sin productos"
  "Orden #" ++ ((data.get "orderNumber").getD Json.null).toStr ++ "\n\n"
    ++ "Productos:\n" ++ productList ++ "\n\n"
    ++ "Total: " ++ ((data.get "currency").getD Json.null).toStr ++ " "
    ++ ((data.get "total").getD Json.null).toStr ++ "\n"
    ++ "Estado: " ++ statusDisplay data "orderStatus" ++ "\n"
    ++ "Pago: " ++ statusDisplay data "paymentStatus"

/-- Truthiness of the optional `data` of a tool result. -/
def dataTruthy (d : Option Json) : Bool :=
  match d with
  | some v => v.truthy
  | none => false

/-- `AgentOrchestrator.generateResponseFromCustomTool`: one further
provider call whose parsed reply supplies message and audio
description. -/
def generateResponseFromCustomTool (jp : String → Option Json) (llm2 : String) :
    AgentResponse × Nat :=
  let parsed := parseLLMResponse jp llm2
  ({ message := parsed.message
     audio_description := jsOrStr parsed.audio_description
       (generateAudioDescription parsed.message)
     action := parsed.action }, 1)

/-- Success handling of the inline-action path (lines following the
`needsUserInput` short circuit in `executeActionFromResponse`),
branching on the action type and the truthiness of the tool data. -/
def inlineSuccessResponse (jp : String → Option Json) (llm2 : String)
    (s : String) (actionPayload : Json) (toolResult : ToolResult)
    (parsed : AgentResponse) : AgentResponse × Nat :=
  if s = "search_product" ∧ dataTruthy toolResult.data then
    let products := (jsOrJ (dataField toolResult.data "products") (Json.arr [])).asArr
    let count := searchCount toolResult.data products
    if count > 0 then
      let action : ActionObj :=
        { type := Json.str "search_product"
          payload := Json.obj
            [("query", jsOrJ (actionPayload.get "query") (Json.str "")),
             ("products", Json.arr products), ("count", Json.num count)] }
      ({ message := searchFoundMessage count products
         audio_description := generateAudioDescription (searchFoundMessage count products)
           (some action)
         action := action }, 0)
    else
      let msg := "No encontré productos que coincidan con \""
        ++ (jsOrJ (actionPayload.get "query") (Json.str "tu búsqueda")).toStr
        ++ "\". ¿Podrías ser más específico?"
      let action : ActionObj :=
        { type := Json.str "search_product"
          payload := Json.obj
            [("query", jsOrJ (actionPayload.get "query") (Json.str "")),
             ("products", Json.arr []), ("count", Json.num 0)] }
      ({ message := msg
         audio_description := generateAudioDescription msg (some action)
         action := action }, 0)
  else if s = "show_product" ∧ dataTruthy toolResult.data then
    let action : ActionObj :=
      { type := Json.str "show_product", payload := toolResult.data.getD Json.null }
    ({ message := parsed.message
       audio_description := generateAudioDescription parsed.message (some action)
       action := action }, 0)
  else if s = "add_to_cart" ∧ dataTruthy toolResult.data then
    let action : ActionObj :=
      { type := Json.str "add_to_cart", payload := toolResult.data.getD Json.null }
    let msg := (jsOrJ (dataField toolResult.data "message") (Json.str parsed.message)).toStr
    ({ message := msg
       audio_description := generateAudioDescription msg (some action)
       action := action }, 0)
  else if s = "get_order" ∧ dataTruthy toolResult.data then
    let data := toolResult.data.getD Json.null
    let action : ActionObj := { type := Json.str "get_order", payload := data }
    ({ message := getOrderMessage data
       audio_description := generateAudioDescription (getOrderMessage data) (some action)
       action := action }, 0)
  else
    let (ctr, n) := generateResponseFromCustomTool jp llm2
    ({ message := ctr.message
       audio_description := ctr.audio_description
       action := { type := Json.str s, payload := jsOrJ toolResult.data (Json.obj []) } }, n)

/-- The action-to-tool dispatch of `executeActionFromResponse` (the
`switch` over the action type): the four core actions, then the
custom-tool lookup; an unknown or non-string action dispatches
nothing. -/
def inlineDispatch (cfg : AgentConfig) (lastSearchResults : List Json)
    (actionType actionPayload : Json) : Option (String × Json) :=
  match actionType with
  | Json.str s =>
      if s = "search_product" then some (s, actionPayload)
      else if s = "add_to_cart" then some (s, fillProductId actionPayload lastSearchResults)
      else if s = "show_product" then some (s, fillProductId actionPayload lastSearchResults)
      else if s = "get_order" then some (s, actionPayload)
      else
        match findCustomTool s cfg with
        | some ct => some (s, mapCustomPayload ct actionPayload)
        | none => none
  | _ => none

/-- `AgentOrchestrator.executeActionFromResponse`: dispatch the parsed
inline action to a tool, short-circuit on `needsUserInput`, otherwise
shape a success or failure response (the `catch` wrapper is not
modelled: the embedded executors return results instead of throwing). -/
def executeActionFromResponse (cfg : AgentConfig) (lastSearchResults : List Json)
    (toolExec : String → Json → ToolResult) (jp : String → Option Json) (llm2 : String)
    (parsed : AgentResponse) : TurnResult :=
  let actionType := parsed.action.type
  let actionPayload := if parsed.action.payload.truthy then parsed.action.payload else Json.obj []
  match inlineDispatch cfg lastSearchResults actionType actionPayload with
  | none => { response := parsed, providerCalls := 0 }
  | some (s, payload) =>
      let toolResult := toolExec s payload
      if optBoolTruthy toolResult.needsUserInput then
        { response := needsInputResponse toolResult parsed, providerCalls := 0 }
      else if toolResult.success then
        let (resp, n) := inlineSuccessResponse jp llm2 s actionPayload toolResult parsed
        { response := resp, providerCalls := n }
      else
        { response := toolFailureResponse toolResult actionType, providerCalls := 0 }

/-- One step of the action override performed after the narration
round-trip: a successful tool result replaces the action, keyed by the
tool's name. -/
def toolResultAction (acc : ActionObj) (tr : String × ToolResult) : ActionObj :=
  if tr.2.success then
    if tr.1 = "search_product" then
      { type := Json.str "search_product"
        payload := Json.obj
          [("query", jsOrJ (dataField tr.2.data "query") (Json.str "")),
           ("products", jsOrJ (dataField tr.2.data "products") (Json.arr [])),
           ("count", jsOrJ (dataField tr.2.data "count") (Json.num 0))] }
    else if tr.1 = "add_to_cart" then
      { type := Json.str "add_to_cart", payload := tr.2.data.getD Json.null }
    else if tr.1 = "show_product" then
      { type := Json.str "show_product", payload := tr.2.data.getD Json.null }
    else if tr.1 = "get_order" then
      { type := Json.str "get_order", payload := tr.2.data.getD Json.null }
    else
      { type := Json.str tr.1, payload := jsOrJ tr.2.data (Json.obj []) }
  else acc

/-- `AgentOrchestrator.generateResponseFromToolResults`: the narration
round-trip made after model-issued tool calls.  It always performs one
further provider call; the `action` starts from the narration reply and
is overridden by each successful tool result in order.  There is no
`needsUserInput` handling on this path. -/
def generateResponseFromToolResults (jp : String → Option Json) (llm2 : String)
    (toolResults : List (String × ToolResult)) : TurnResult :=
  let parsed := parseLLMResponse jp llm2
  let action := toolResults.foldl toolResultAction parsed.action
  { response :=
      { message := parsed.message
        audio_description := jsOrStr parsed.audio_description
          (generateAudioDescription parsed.message (some action))
        action := action }
    providerCalls := 1 }

/-- `AgentOrchestrator.processMessage`, from the first provider call
onwards (config/history loading, token accounting and persistence do
not alter message or action shaping and are not modelled;
`lastSearchResults` is the piece of the extracted context the shaping
paths read).  `llm1` is the first provider reply, `llm2` the content of
the second provider call when one is made, `toolExec` the registry, and
`jp` models `JSON.parse`.  `providerCalls` counts provider round-trips
including the first. -/
def processMessage (cfg : AgentConfig) (lastSearchResults : List Json)
    (toolExec : String → Json → ToolResult) (jp : String → Option Json)
    (llm1 : LLMResponse) (llm2 : String) : TurnResult :=
  match llm1.toolCalls with
  | [] =>
      let parsed := parseLLMResponse jp llm1.content
      if parsed.action.type.truthy then
        let r := executeActionFromResponse cfg lastSearchResults toolExec jp llm2 parsed
        { response := r.response, providerCalls := 1 + r.providerCalls }
      else
        { response := parsed, providerCalls := 1 }
  | tc :: tcs =>
      let toolResults := (tc :: tcs).map (fun c => (c.name, toolExec c.name c.arguments))
      let r := generateResponseFromToolResults jp llm2 toolResults
      { response := r.response, providerCalls := 1 + r.providerCalls }

/-! ## Product store (`src/db/productsRepo.ts`) -/

/-- The `price` block of a product. -/
structure Price where
  regular : ℚ
  sale : ℚ
deriving DecidableEq

/-- A product document.  `isTrashStatus` is the nested `is_trash.status`
value; `none` models a document without the `is_trash` field (which the
Mongo filter `is_trash.status = false` does not match). -/
structure Product where
  id : Option String := none
  domain : String
  title : String
  slug : String
  description_short : Option String := none
  description_long : Option String := none
  price : Price
  image_default : List String := []
  stock : Option ℚ := none
  is_available : Bool := true
  isTrashStatus : Option Bool := none
  order : Option ℚ := none
deriving DecidableEq

/-- Mongo `.limit(n)`: `0` means unlimited. -/
def mongoLimit {α : Type} (limit : Nat) (l : List α) : List α :=
  if limit = 0 then l else l.take limit

/-- Substring test (used for `includes` and, on lowered strings, as the
model of an unanchored case-insensitive `$regex` on a literal query). -/
def containsSub (s pat : String) : Bool :=
  (List.range (s.data.length + 1)).any (fun i => pat.data.isPrefixOf (s.data.drop i))

/-- Case-insensitive substring match. -/
def containsCI (hay needle : String) : Bool := containsSub hay.toLower needle.toLower

/-- Regex match against an optional field (a missing field never
matches). -/
def matchOpt (f : Option String) (q : String) : Bool :=
  match f with
  | some s => containsCI s q
  | none => false

/-- The `$or` clause of `ProductsRepo.search`. -/
def queryMatches (q : String) (p : Product) : Bool :=
  containsCI p.title q ∨ matchOpt p.description_short q
    ∨ matchOpt p.description_long q ∨ containsCI p.slug q

/-- Base filter of `ProductsRepo.search`: tenant scope, not deleted,
available. -/
def productBaseFilter (domain : String) (p : Product) : Bool :=
  p.domain = domain ∧ p.isTrashStatus = some false ∧ p.is_available

/-- Ascending comparison on an optional sort key; Mongo sorts documents
missing the field first. -/
def ordKeyLe : Option ℚ → Option ℚ → Prop
  | none, _ => True
  | some _, none => False
  | some x, some y => x ≤ y

instance : DecidableRel ordKeyLe := fun a b => by
  cases a <;> cases b <;> unfold ordKeyLe <;> infer_instance

theorem ordKeyLe_total (a b : Option ℚ) : ordKeyLe a b ∨ ordKeyLe b a := by
  cases a <;> cases b <;> simp [ordKeyLe]
  exact le_total _ _

theorem ordKeyLe_trans (a b c : Option ℚ) (hab : ordKeyLe a b) (hbc : ordKeyLe b c) :
    ordKeyLe a c := by
  cases a <;> cases b <;> cases c <;> simp_all [ordKeyLe]
  exact le_trans hab hbc

/-- Ascending comparison on the `order` field (`sort({order: 1})`). -/
def productOrderLe (a b : Product) : Prop := ordKeyLe a.order b.order

instance : DecidableRel productOrderLe := fun a b => by
  unfold productOrderLe; infer_instance

instance : IsTotal Product productOrderLe := ⟨fun a b => ordKeyLe_total a.order b.order⟩

instance : IsTrans Product productOrderLe :=
  ⟨fun a b c hab hbc => ordKeyLe_trans a.order b.order c.order hab hbc⟩

/-- `ProductsRepo.search`: tenant-scoped filter, optional regex clause
for a non-blank query, sort ascending by `order`, limit.  The sort is
modelled by a stable insertion sort. -/
def productsSearch (db : List Product) (domain query : String) (limit : Nat) :
    List Product :=
  let filtered := db.filter (fun p =>
    productBaseFilter domain p
      ∧ (if query ≠ "" ∧ query.trim ≠ "" then queryMatches query p else true))
  mongoLimit limit (filtered.insertionSort productOrderLe)

/-- `ProductsRepo.getById`: lookup by `_id` first, then by slug, both
tenant-scoped and excluding deleted documents.  (The `ObjectId.isValid`
guard is elided: an id lookup with a non-id identifier simply finds
nothing.) -/
def productsGetById (db : List Product) (domain identifier : String) : Option Product :=
  match db.find? (fun p =>
      p.id = some identifier ∧ p.domain = domain ∧ p.isTrashStatus = some false) with
  | some p => some p
  | none =>
      db.find? (fun p =>
        p.domain = domain ∧ p.slug = identifier ∧ p.isTrashStatus = some false)

/-- `ProductsRepo.getProductPrice`: the sale price when positive,
otherwise the regular price. -/
def getProductPrice (p : Product) : ℚ :=
  if p.price.sale > 0 then p.price.sale else p.price.regular

/-- `ProductsRepo.getProductImage`: first default image, if any. -/
def getProductImage (p : Product) : Option String := p.image_default.head?

/-! ## Order store (`src/db/ordersRepo.ts`) -/

/-- One line item of an order. -/
structure OrderProduct where
  productId : String
  id : String
  title : String
  image : String
  qty : ℚ
  price_regular : ℚ
  price_sale : ℚ
  valid_price : ℚ
  slug : String
  isValid : Bool
deriving DecidableEq

/-- Client/billing/shipping info block. -/
structure ClientInfo where
  doc : String
  name : String
  email : String
  phone : String
deriving DecidableEq

/-- Payment or order status (the `date` fields are wall-clock values
that no embedded function reads back; they are elided). -/
structure StatusInfo where
  typeStatus : String
  message : String := ""
  methodPayment : String := ""
deriving DecidableEq

/-- An order document; `createdAt` is the creation timestamp used for
sorting. -/
structure Order where
  id : Option String := none
  domain : String
  products : List OrderProduct
  clientInfo : ClientInfo
  billingInfo : ClientInfo
  shippingInfo : ClientInfo
  paymentStatus : StatusInfo
  total : ℚ
  currency : String
  orderStatus : StatusInfo
  orderNumber : String
  createdAt : ℚ := 0
deriving DecidableEq

/-- `OrdersRepo.getById`: by `_id` first, then by `orderNumber`, both
tenant-scoped. -/
def ordersGetById (db : List Order) (domain identifier : String) : Option Order :=
  match db.find? (fun o => o.id = some identifier ∧ o.domain = domain) with
  | some o => some o
  | none => db.find? (fun o => o.domain = domain ∧ o.orderNumber = identifier)

/-- Descending comparison on `createdAt` (`sort({createdAt: -1})`). -/
def createdAtDesc (a b : Order) : Prop := b.createdAt ≤ a.createdAt

instance : DecidableRel createdAtDesc := fun a b => by unfold createdAtDesc; infer_instance

/-- `OrdersRepo.getByUser`: orders of a tenant whose client email or
phone matches, newest first, limited. -/
def ordersGetByUser (db : List Order) (domain userIdentifier : String) (limit : Nat) :
    List Order :=
  mongoLimit limit
    ((db.filter (fun o => o.domain = domain
        ∧ (o.clientInfo.email = userIdentifier ∨ o.clientInfo.phone = userIdentifier))).insertionSort
      createdAtDesc)

/-- The active-cart query filter: a pending order of the tenant whose
client email or phone matches the user identifier. -/
def activeCartPred (domain userIdentifier : String) (o : Order) : Bool :=
  o.domain = domain ∧ o.orderStatus.typeStatus = "pending"
    ∧ (o.clientInfo.email = userIdentifier ∨ o.clientInfo.phone = userIdentifier)

/-- `OrdersRepo.getActiveCart`: first order matching the active-cart
filter. -/
def getActiveCart (db : List Order) (domain userIdentifier : String) : Option Order :=
  db.find? (activeCartPred domain userIdentifier)

/-- `OrdersRepo.create`: insert the new order document. -/
def ordersCreate (db : List Order) (o : Order) : Order × List Order := (o, db ++ [o])

/-- The order total recomputed from line items:
`Σ (valid_price × qty)`. -/
def orderTotal (ps : List OrderProduct) : ℚ :=
  ps.foldl (fun s p => s + p.valid_price * p.qty) 0

/-- Model of `findOneAndUpdate`: update the first matching document and
return it (after the update). -/
def replaceFirstOrder (db : List Order) (pred : Order → Bool) (f : Order → Order) :
    Option Order × List Order :=
  match db with
  | [] => (none, [])
  | o :: rest =>
      if pred o then (some (f o), f o :: rest)
      else
        let r := replaceFirstOrder rest pred f
        (r.1, o :: r.2)

/-- `OrdersRepo.updateProducts`: replace the product list of the order
matching `(domain, orderNumber)` and recompute its total. -/
def updateProducts (db : List Order) (domain orderNumber : String)
    (ps : List OrderProduct) : Option Order × List Order :=
  let total := orderTotal ps
  replaceFirstOrder db (fun o => o.domain = domain ∧ o.orderNumber = orderNumber)
    (fun o => { o with products := ps, total := total })

/-! ## Core tool: `search_product` (`ToolRegistry.searchProduct`) -/

/-- Arguments of the `search_product` tool after destructuring
(`{query = '', limit = 10}`). -/
structure SearchArgs where
  query : Option String := none
  limit : Option Nat := none
deriving DecidableEq

/-- Successful `search_product` data: always `{products, count}`. -/
structure SearchData where
  products : List Product
  count : Nat
deriving DecidableEq

/-- Result of the `search_product` tool. -/
structure SearchToolResult where
  success : Bool
  data : Option SearchData := none
  error : Option String := none
deriving DecidableEq

/-- `ToolRegistry.searchProduct`.  The `api` and `rag` branches call
external collaborators (HTTP products endpoint, retrieval service);
their outcome, including the missing-`apiUrl` configuration error, is
the oracle `externalOutcome`.  Every other `type` value falls through
to the MongoDB-backed `ProductsRepo.search`. -/
def searchProductTool (productsDb : List Product) (cfg : AgentConfig) (tenantId : String)
    (externalOutcome : SearchToolResult) (args : SearchArgs) : SearchToolResult :=
  let query := args.query.getD ""
  let limit := args.limit.getD 10
  let searchQuery := if query = "" ∨ query.trim = "" ∨ query = "*" then "" else query.trim
  match cfg.tools.searchProduct with
  | none => { success := false, error := some "search_product tool is not enabled" }
  | some tc =>
      if ¬ tc.enabled then
        { success := false, error := some "search_product tool is not enabled" }
      else if tc.type = some "api" ∨ tc.type = some "rag" then externalOutcome
      else
        let products := productsSearch productsDb tenantId searchQuery limit
        { success := true, data := some { products := products, count := products.length } }

/-! ## Core tool: `add_to_cart` (`ToolRegistry.addToCart`) -/

/-- Arguments of the `add_to_cart` tool (`{productId, quantity = 1}`). -/
structure CartArgs where
  productId : Option String := none
  quantity : Option ℚ := none
deriving DecidableEq

/-- Successful `add_to_cart` data (`{message, cart:{orderNumber,
products, total, currency}}`, flattened). -/
structure CartData where
  message : String
  orderNumber : String
  products : List OrderProduct
  total : ℚ
  currency : String
deriving DecidableEq

/-- Result of the `add_to_cart` tool. -/
structure CartToolResult where
  success : Bool
  data : Option CartData := none
  error : Option String := none
deriving DecidableEq

/-- Whether a cart line matches the product being added
(`p.productId === idStr || p.id === idStr`). -/
def cartLineMatches (idStr : String) (p : OrderProduct) : Bool :=
  p.productId = idStr ∨ p.id = idStr

/-- Increment the quantity of the first matching line and refresh its
`valid_price` with the product's current price. -/
def bumpFirstLine : List OrderProduct → String → ℚ → ℚ → List OrderProduct
  | [], _, _, _ => []
  | p :: rest, idStr, q, price =>
      if cartLineMatches idStr p then
        { p with qty := p.qty + q, valid_price := price } :: rest
      else p :: bumpFirstLine rest idStr q price

/-- The new line pushed when the product is not yet in the cart. -/
def newCartLine (idStr : String) (quantity productPrice : ℚ) (product : Product) :
    OrderProduct :=
  { productId := idStr
    id := idStr
    title := jsOrStr product.title "Producto sin nombre"
    image := (getProductImage product).getD ""
    qty := quantity
    price_regular := if product.price.regular ≠ 0 then product.price.regular else productPrice
    price_sale := if product.price.sale ≠ 0 then product.price.sale else 0
    valid_price := productPrice
    slug := product.slug
    isValid := true }

/-- Cart merge: increment an existing line by product id, or push a new
line. -/
def mergeCartLine (lines : List OrderProduct) (idStr : String) (quantity productPrice : ℚ)
    (product : Product) : List OrderProduct :=
  if lines.any (cartLineMatches idStr) then bumpFirstLine lines idStr quantity productPrice
  else lines ++ [newCartLine idStr quantity productPrice product]

/-- The default client info of a freshly created cart. -/
def defaultClientInfo (userId : String) : ClientInfo :=
  { doc := ""
    name := ""
    email := if userId.contains '@' then userId else userId ++ "@temp.com"
    phone := if userId.contains '@' then "" else userId }

/-- The line-item product id:
`product._id?.toString() || productId`. -/
def cartProductIdStr (product : Product) (pid : String) : String :=
  match product.id with
  | some s => if s = "" then pid else s
  | none => pid

/-- The fresh cart document created when no pending order exists for
the user. -/
def newCartFor (tenantId userId freshOrderNumber : String) : Order :=
  { domain := tenantId
    products := []
    clientInfo := defaultClientInfo userId
    billingInfo := defaultClientInfo userId
    shippingInfo := defaultClientInfo userId
    paymentStatus := { typeStatus := "pending" }
    total := 0
    currency := "PEN"
    orderStatus := { typeStatus := "pending" }
    orderNumber := freshOrderNumber }

/-- `ToolRegistry.addToCart`: look up the product, find or create the
pending cart, merge the line item, recompute the total and persist.
`freshOrderNumber` stands for `generateOrderNumber()` (wall clock plus
randomness).  Returns the tool result together with the updated order
store. -/
def addToCart (productsDb : List Product) (ordersDb : List Order)
    (tenantId userId freshOrderNumber : String) (args : CartArgs) :
    CartToolResult × List Order :=
  match args.productId with
  | none => ({ success := false, error := some "productId parameter is required" }, ordersDb)
  | some pid =>
      if pid = "" then
        ({ success := false, error := some "productId parameter is required" }, ordersDb)
      else
        let quantity := args.quantity.getD 1
        match productsGetById productsDb tenantId pid with
        | none =>
            ({ success := false, error := some ("Product not found: " ++ pid) }, ordersDb)
        | some product =>
            let productPrice := getProductPrice product
            let productIdStr := cartProductIdStr product pid
            let cartAndDb :=
              match getActiveCart ordersDb tenantId userId with
              | some c => (c, ordersDb)
              | none => ordersCreate ordersDb (newCartFor tenantId userId freshOrderNumber)
            let cart := cartAndDb.1
            let newProducts := mergeCartLine cart.products productIdStr quantity productPrice product
            let newTotal := orderTotal newProducts
            let upd := updateProducts cartAndDb.2 tenantId cart.orderNumber newProducts
            match upd.1 with
            | none => ({ success := false, error := some "Failed to update cart" }, upd.2)
            | some _ =>
                ({ success := true
                   data := some
                     { message := "Producto " ++ product.title ++ " agregado al carrito"
                       orderNumber := cart.orderNumber
                       products := newProducts
                       total := newTotal
                       currency := cart.currency } }, upd.2)

/-! ## Core tool: `get_order` (`ToolRegistry.getOrder`) -/

/-- Arguments of the `get_order` tool. -/
structure OrderArgs where
  orderId : Option String := none
  orderNumber : Option String := none
  email : Option String := none
  phone : Option String := none
deriving DecidableEq

/-- Successful `get_order` data (the `createdAt` echo is elided with the
other wall-clock fields). -/
structure OrderData where
  orderNumber : String
  products : List OrderProduct
  total : ℚ
  currency : String
  paymentStatus : StatusInfo
  orderStatus : StatusInfo
  clientInfo : ClientInfo
deriving DecidableEq

/-- Result of the `get_order` tool. -/
structure OrderToolResult where
  success : Bool
  data : Option OrderData := none
  error : Option String := none
  needsUserInput : Option Bool := none
  question : Option String := none
deriving DecidableEq

/-- Truthiness of an optional string argument. -/
def strTruthy (s : Option String) : Bool :=
  match s with
  | some v => v ≠ ""
  | none => false

/-- Wrap a lookup outcome: a missing order is a `needsUserInput`
outcome, not a plain failure. -/
def orderLookupResult (o : Option Order) : OrderToolResult :=
  match o with
  | none =>
      { success := false
        needsUserInput := some true
        question := some "No encontré ninguna orden con esa información. ¿Podrías verificar el número de orden, email o teléfono?"
        error := some "Order not found" }
  | some o =>
      { success := true
        data := some
          { orderNumber := o.orderNumber
            products := o.products
            total := o.total
            currency := o.currency
            paymentStatus := o.paymentStatus
            orderStatus := o.orderStatus
            clientInfo := o.clientInfo } }

/-- `ToolRegistry.getOrder`: prefer `orderNumber`, then `orderId`, then
email/phone; with none of the four, short-circuit to a canned
`needsUserInput` question.  (Repository exceptions, the only other
failure path, are I/O faults outside this model.) -/
def getOrderTool (ordersDb : List Order) (tenantId : String) (args : OrderArgs) :
    OrderToolResult :=
  if strTruthy args.orderNumber then
    orderLookupResult (ordersGetById ordersDb tenantId (args.orderNumber.getD ""))
  else if strTruthy args.orderId then
    orderLookupResult (ordersGetById ordersDb tenantId (args.orderId.getD ""))
  else if strTruthy args.email ∨ strTruthy args.phone then
    let userIdentifier := if strTruthy args.email then args.email.getD "" else args.phone.getD ""
    orderLookupResult (ordersGetByUser ordersDb tenantId userIdentifier 1).head?
  else
    { success := false
      needsUserInput := some true
      question := some "Para buscar tu orden, necesito alguna de estas informaciones: número de orden, tu email o tu teléfono. ¿Cuál puedes proporcionarme?"
      error := some "Missing required information: orderNumber, orderId, email, or phone" }

/-! ## Custom tool invocation (`ToolRegistry.executeCustomTool`) -/

/-- Replace the first occurrence of `pat` in `cs` by `sub`
(JS `String.prototype.replace` with a string pattern). -/
def replaceFirstOcc : List Char → List Char → List Char → List Char
  | [], _, _ => []
  | c :: rest, pat, sub =>
      if pat ≠ [] ∧ pat.isPrefixOf (c :: rest) then sub ++ (c :: rest).drop pat.length
      else c :: replaceFirstOcc rest pat sub

/-- The placeholder token for an argument name. -/
def placeholder (key : String) : String := "\x7b" ++ key ++ "\x7d"

/-- Substitute each argument into the path template:
`path.replace(placeholder(key), String(value))`, in argument order. -/
def substPathArgs (path : String) (args : List (String × Json)) : String :=
  args.foldl
    (fun p kv => String.mk (replaceFirstOcc p.data (placeholder kv.1).data kv.2.toStr.data))
    path

/-- The HTTP request handed to the external transport.  The query
string of the source is kept structured (`URLSearchParams` percent
encoding is not modelled). -/
structure HttpRequest where
  url : String
  method : String
  queryParams : List (String × String)
  body : Option (List (String × Json))
  apiKeyEncrypted : Option String

/-- Result of a custom tool. -/
structure CustomToolResult where
  success : Bool
  data : Option Json := none
  error : Option String := none

/-- Whether a GET argument is consumed by a path placeholder
(`customTool.path && customTool.path.includes(placeholder)`). -/
def argConsumedByPath (path : Option String) (key : String) : Bool :=
  match path with
  | some p => if p ≠ "" then containsSub p (placeholder key) else false
  | none => false

/-- The HTTP request built by `executeCustomTool`: path templating,
`GET` query parameters versus request body, `POST` default method. -/
def customToolRequest (tool : CustomTool) (args : List (String × Json)) : HttpRequest :=
  let url :=
    match tool.path with
    | some p =>
        if p ≠ "" then tool.baseUrl ++ substPathArgs p args
        else tool.baseUrl ++ "/" ++ tool.name
    | none => tool.baseUrl ++ "/" ++ tool.name
  let method := jsOrS tool.method "POST"
  let queryParams :=
    if method = "GET" then
      args.filterMap (fun kv =>
        if argConsumedByPath tool.path kv.1 then none else some (kv.1, kv.2.toStr))
    else []
  let body := if method = "GET" then none else some args
  { url := url
    method := method
    queryParams := queryParams
    body := body
    apiKeyEncrypted := tool.apiKeyEncrypted }

/-- `ToolRegistry.executeCustomTool`: defensive `baseUrl` check, then
the templated request is handed to the external transport.  `fetchO` is
the oracle for the transport; the request actually issued is returned
alongside the result. -/
def executeCustomTool (fetchO : HttpRequest → Except String Json) (tool : CustomTool)
    (args : List (String × Json)) : CustomToolResult × Option HttpRequest :=
  if tool.baseUrl = "" then
    ({ success := false
       error := some ("Custom tool \"" ++ tool.name ++ "\" is missing baseUrl") }, none)
  else
    let req := customToolRequest tool args
    match fetchO req with
    | .ok response => ({ success := true, data := some response }, some req)
    | .error e => ({ success := false, error := some e }, some req)

/-! ## Cost estimation (`AgentOrchestrator.calculateEstimatedCost`) -/

/-- Per-million-token price of a model. -/
structure ModelPrice where
  input : ℚ
  output : ℚ
deriving DecidableEq

/-- The static price table (`pricing` object literal), in source
order. -/
def pricingList : List (String × ModelPrice) :=
  [("gpt-4o", { input := 2.50, output := 10.00 }),
   ("gpt-4o-mini", { input := 0.15, output := 0.60 }),
   ("gpt-4-turbo", { input := 10.00, output := 30.00 }),
   ("gpt-4", { input := 30.00, output := 60.00 }),
   ("gpt-3.5-turbo", { input := 0.50, output := 1.50 }),
   ("gemini-2.5-flash", { input := 0.075, output := 0.30 }),
   ("gemini-2.0-flash-exp", { input := 0.075, output := 0.30 }),
   ("gemini-1.5-pro", { input := 1.25, output := 5.00 }),
   ("gemini-1.5-flash", { input := 0.075, output := 0.30 }),
   ("llama-3.1-70b-versatile", { input := 0.59, output := 0.79 }),
   ("llama-3.1-8b-instant", { input := 0.05, output := 0.08 }),
   ("mixtral-8x7b-32768", { input := 0.24, output := 0.24 })]

/-- Key lookup in the price table (`pricing[model.toLowerCase()]`). -/
def pricingTable (model : String) : Option ModelPrice :=
  (pricingList.find? (fun e => e.1 = model)).map (fun e => e.2)

/-- Price selection: exact (lowercased) model match, otherwise a
provider-level default, otherwise the generic default. -/
def priceFor (provider model : String) : ModelPrice :=
  match pricingTable model.toLower with
  | some p => p
  | none =>
      if provider = "openai" then { input := 0.50, output := 1.50 }
      else if provider = "gemini" then { input := 0.075, output := 0.30 }
      else if provider = "groq" then { input := 0.59, output := 0.79 }
      else { input := 0.50, output := 1.50 }

/-- Rounding to six decimal places
(`parseFloat(x.toFixed(6))`, modelled as exact decimal half-up
rounding; binary floating point is not modelled). -/
def round6 (q : ℚ) : ℚ := (Int.floor (q * 1000000 + 1/2) : ℚ) / 1000000

/-- The cost breakdown returned by `calculateEstimatedCost`. -/
structure CostBreakdown where
  inputCostPerMillion : ℚ
  outputCostPerMillion : ℚ
  totalCost : ℚ
  currency : String
deriving DecidableEq

/-- `AgentOrchestrator.calculateEstimatedCost`. -/
def calculateEstimatedCost (provider model : String) (inputTokens outputTokens : ℕ) :
    CostBreakdown :=
  let price := priceFor provider model
  let inputCost := ((inputTokens : ℚ) / 1000000) * price.input
  let outputCost := ((outputTokens : ℚ) / 1000000) * price.output
  let totalCost := inputCost + outputCost
  { inputCostPerMillion := price.input
    outputCostPerMillion := price.output
    totalCost := round6 totalCost
    currency := "USD" }

/-- The payload actually passed to the tool on the inline-action path
(the productId back-fill applies to `add_to_cart` and `show_product`). -/
def inlineActionPayload (s : String) (parsed : AgentResponse) (lsr : List Json) : Json :=
  let actionPayload := if parsed.action.payload.truthy then parsed.action.payload else Json.obj []
  if s = "add_to_cart" ∨ s = "show_product" then fillProductId actionPayload lsr
  else actionPayload

/-! ## Auxiliary lemmas -/

theorem replaceFirstOrder_none {p : Order → Bool} {f : Order → Order} :
    ∀ {l : List Order}, (∀ o ∈ l, p o = false) → replaceFirstOrder l p f = (none, l)
  | [], _ => rfl
  | o :: rest, h => by
      have h0 : p o = false := h o (List.mem_cons_self o rest)
      have ih := replaceFirstOrder_none (p := p) (f := f) (l := rest)
        (fun x hx => h x (List.mem_cons_of_mem o hx))
      simp [replaceFirstOrder, h0, ih]

theorem replaceFirstOrder_append_last {p : Order → Bool} {f : Order → Order}
    {l : List Order} {y : Order} (h : ∀ o ∈ l, p o = false) (hy : p y = true) :
    replaceFirstOrder (l ++ [y]) p f = (some (f y), l ++ [f y]) := by
  induction l with
  | nil => simp [replaceFirstOrder, hy]
  | cons o rest ih =>
      have h0 : p o = false := h o (List.mem_cons_self o rest)
      have := ih (fun x hx => h x (List.mem_cons_of_mem o hx))
      simp [replaceFirstOrder, h0, this]

theorem replaceFirstOrder_isSome {p : Order → Bool} {f : Order → Order} :
    ∀ {l : List Order}, (∃ o ∈ l, p o = true) →
      ∃ y db2, replaceFirstOrder l p f = (some (f y), db2) ∧ p y = true
  | [], h => absurd h.choose_spec.1 (List.not_mem_nil _)
  | o :: rest, h => by
      by_cases h0 : p o = true
      · exact ⟨o, f o :: rest, by simp [replaceFirstOrder, h0], h0⟩
      · obtain ⟨x, hx, hpx⟩ := h
        rcases List.mem_cons.mp hx with rfl | hx2
        · exact absurd hpx h0
        · obtain ⟨y, db2, heq, hy⟩ :=
            replaceFirstOrder_isSome (p := p) (f := f) ⟨x, hx2, hpx⟩
          exact ⟨y, o :: db2, by simp [replaceFirstOrder, h0, heq], hy⟩

/-! ## Claim C2 -/

theorem toolDef_ne_of_name {a b : ToolDefinition} (h : a.name ≠ b.name) : a ≠ b :=
  fun he => h (congrArg ToolDefinition.name he)

theorem spd_ne_atc : searchProductDef ≠ addToCartDef := toolDef_ne_of_name (by decide)

theorem spd_ne_god : searchProductDef ≠ getOrderDef := toolDef_ne_of_name (by decide)

theorem spd_ne_shp : searchProductDef ≠ showProductDef := toolDef_ne_of_name (by decide)

theorem spd_ne_rag : searchProductDef ≠ ragQueryDef := toolDef_ne_of_name (by decide)

theorem atc_ne_god : addToCartDef ≠ getOrderDef := toolDef_ne_of_name (by decide)

theorem atc_ne_shp : addToCartDef ≠ showProductDef := toolDef_ne_of_name (by decide)

theorem atc_ne_rag : addToCartDef ≠ ragQueryDef := toolDef_ne_of_name (by decide)

theorem god_ne_shp : getOrderDef ≠ showProductDef := toolDef_ne_of_name (by decide)

theorem god_ne_rag : getOrderDef ≠ ragQueryDef := toolDef_ne_of_name (by decide)

theorem shp_ne_rag : showProductDef ≠ ragQueryDef := toolDef_ne_of_name (by decide)

/-- C2: `getToolDefinitions` advertises a custom tool only in mode
`custom`/`hybrid` and only when the declaration is enabled exactly with
`true` and carries a non-empty name and base URL; core tools appear
only in mode `default`/`hybrid`, each gated by its capability flag
(`show_product` is keyed to the `searchProduct` flag and the
knowledge-retrieval query to a `rag` knowledge source); in mode
`default` no custom tool appears and in mode `custom` no core tool
appears. -/
theorem C2_tool_advertisement (cfg : AgentConfig) :
    (toolModeOf cfg = "default" → getToolDefinitions cfg = coreToolDefinitions cfg) ∧
    (toolModeOf cfg = "custom" → getToolDefinitions cfg = customAdvertised cfg) ∧
    (∀ d ∈ customAdvertised cfg,
      (toolModeOf cfg = "custom" ∨ toolModeOf cfg = "hybrid") ∧
        ∃ t ∈ cfg.tools.custom.getD [],
          t.enabled = some true ∧ t.name ≠ "" ∧ t.baseUrl ≠ "" ∧ d = customToolDefinition t) ∧
    (toolModeOf cfg ≠ "default" → toolModeOf cfg ≠ "hybrid" →
      getToolDefinitions cfg = customAdvertised cfg) ∧
    (searchProductDef ∈ coreToolDefinitions cfg
      ↔ toolConfigEnabled cfg.tools.searchProduct = true) ∧
    (addToCartDef ∈ coreToolDefinitions cfg
      ↔ toolConfigEnabled cfg.tools.addToCart = true) ∧
    (getOrderDef ∈ coreToolDefinitions cfg
      ↔ toolConfigEnabled cfg.tools.getOrder = true) ∧
    (showProductDef ∈ coreToolDefinitions cfg
      ↔ toolConfigEnabled cfg.tools.searchProduct = true) ∧
    (ragQueryDef ∈ coreToolDefinitions cfg
      ↔ (cfg.knowledge.companyInfo.map (fun k => k.source) = some "rag"
          ∨ cfg.knowledge.products.map (fun k => k.source) = some "rag")) := by
  refine ⟨?_, ?_, ?_, ?_, ?_, ?_, ?_, ?_, ?_⟩
  · intro h
    simp [getToolDefinitions, customAdvertised, h]
  · intro h
    simp [getToolDefinitions, h]
  · intro d hd
    unfold customAdvertised at hd
    split at hd
    · next hcond =>
        refine ⟨hcond.1, ?_⟩
        obtain ⟨t, ht, hf⟩ := List.mem_filterMap.mp hd
        refine ⟨t, ht, ?_⟩
        by_cases h1 : t.name = "" ∨ t.baseUrl = ""
        · simp [customToolDefinitions, h1] at hf
        · by_cases h2 : t.enabled = some true
          · simp only [h1, if_false, h2, if_true, Option.some.injEq] at hf
            push_neg at h1
            exact ⟨h2, h1.1, h1.2, hf.symm⟩
          · simp [h1, h2] at hf
    · simp at hd
  · intro h1 h2
    simp [getToolDefinitions, h1, h2]
  all_goals
    unfold coreToolDefinitions
  all_goals
    split_ifs <;>
      simp_all [List.mem_append, spd_ne_atc, spd_ne_god, spd_ne_shp, spd_ne_rag,
        atc_ne_god, atc_ne_shp, atc_ne_rag, god_ne_shp, god_ne_rag, shp_ne_rag,
        Ne.symm spd_ne_atc, Ne.symm spd_ne_god, Ne.symm spd_ne_shp, Ne.symm spd_ne_rag,
        Ne.symm atc_ne_god, Ne.symm atc_ne_shp, Ne.symm atc_ne_rag,
        Ne.symm god_ne_shp, Ne.symm god_ne_rag, Ne.symm shp_ne_rag]

/-- Sample configuration used to instantiate C2. -/
def sampleConfigC2 : AgentConfig :=
  { tenantId := "t"
    agentId := "default"
    llm := { provider := "openai", model := "gpt-4o" }
    knowledge := {}
    tools :=
      { mode := none
        searchProduct := some { enabled := true }
        custom := some [{ name := "x", baseUrl := "http://x", enabled := some true }] } }

/-- Witness for C2: with no declared mode the effective mode is
`default` and only core tools are advertised despite the enabled custom
declaration. -/
theorem C2_tool_advertisement_witness :
    toolModeOf sampleConfigC2 = "default"
      ∧ getToolDefinitions sampleConfigC2 = coreToolDefinitions sampleConfigC2 :=
  ⟨rfl, (C2_tool_advertisement sampleConfigC2).1 rfl⟩

/-! ## Claim C4 -/

theorem missingInfoQuestion_ne :
    ("Para buscar tu orden, necesito alguna de estas informaciones: número de orden, tu email o tu teléfono. ¿Cuál puedes proporcionarme?" : String) ≠ "" := by
  decide

theorem orderLookupResult_spec (o : Option Order) :
    (orderLookupResult o).success = false →
      (orderLookupResult o).needsUserInput = some true ∧
        ∃ q, (orderLookupResult o).question = some q ∧ q ≠ "" := by
  cases o with
  | none => exact fun _ => ⟨rfl, _, rfl, by decide⟩
  | some _ => intro h; simp [orderLookupResult] at h

/-- C4: with none of `orderNumber`, `orderId`, `email`, `phone`
supplied, `get_order` returns the canned `needsUserInput` question —
never a plain failure — and every unsuccessful outcome of the tool
(including a valid-but-not-found lookup) carries `needsUserInput` with
a non-empty clarifying question. -/
theorem C4_get_order_clarifies (db : List Order) (tenantId : String) (args : OrderArgs) :
    (strTruthy args.orderNumber = false → strTruthy args.orderId = false →
      strTruthy args.email = false → strTruthy args.phone = false →
      getOrderTool db tenantId args =
        { success := false
          needsUserInput := some true
          question := some "Para buscar tu orden, necesito alguna de estas informaciones: número de orden, tu email o tu teléfono. ¿Cuál puedes proporcionarme?"
          error := some "Missing required information: orderNumber, orderId, email, or phone" }) ∧
    ((getOrderTool db tenantId args).success = false →
      (getOrderTool db tenantId args).needsUserInput = some true ∧
        ∃ q, (getOrderTool db tenantId args).question = some q ∧ q ≠ "") := by
  constructor
  · intro h1 h2 h3 h4
    simp [getOrderTool, h1, h2, h3, h4]
  · unfold getOrderTool
    split_ifs
    all_goals
      first
        | exact orderLookupResult_spec _
        | exact fun _ => ⟨rfl, _, rfl, missingInfoQuestion_ne⟩

/-- Witness for C4: the empty argument object yields the canned
clarifying question. -/
theorem C4_get_order_clarifies_witness :
    getOrderTool [] "t" {} =
      { success := false
        needsUserInput := some true
        question := some "Para buscar tu orden, necesito alguna de estas informaciones: número de orden, tu email o tu teléfono. ¿Cuál puedes proporcionarme?"
        error := some "Missing required information: orderNumber, orderId, email, or phone" } :=
  (C4_get_order_clarifies [] "t" {}).1 rfl rfl rfl rfl

/-! ## Claim C7 -/

theorem pricingList_nonneg : ∀ e ∈ pricingList, 0 ≤ e.2.input ∧ 0 ≤ e.2.output := by
  intro e he
  simp only [pricingList, List.mem_cons, List.not_mem_nil, or_false] at he
  rcases he with rfl | rfl | rfl | rfl | rfl | rfl | rfl | rfl | rfl | rfl | rfl | rfl <;>
    exact ⟨by norm_num, by norm_num⟩

theorem pricingTable_nonneg (m : String) (p : ModelPrice) (h : pricingTable m = some p) :
    0 ≤ p.input ∧ 0 ≤ p.output := by
  unfold pricingTable at h
  obtain ⟨e, he, hep⟩ := Option.map_eq_some'.mp h
  have := pricingList_nonneg e (List.mem_of_find?_eq_some he)
  rw [hep] at this
  exact this

theorem priceFor_nonneg (provider model : String) :
    0 ≤ (priceFor provider model).input ∧ 0 ≤ (priceFor provider model).output := by
  unfold priceFor
  cases h : pricingTable model.toLower with
  | some p => exact pricingTable_nonneg _ p h
  | none => split_ifs <;> constructor <;> norm_num

theorem round6_mono {a b : ℚ} (h : a ≤ b) : round6 a ≤ round6 b := by
  unfold round6
  have hf : Int.floor (a * 1000000 + 1 / 2) ≤ Int.floor (b * 1000000 + 1 / 2) :=
    Int.floor_le_floor (by linarith)
  have : ((Int.floor (a * 1000000 + 1 / 2) : ℚ)) ≤ (Int.floor (b * 1000000 + 1 / 2) : ℚ) :=
    Int.cast_le.mpr hf
  linarith

/-- C7: the estimated cost is the per-million price applied to the
token counts and rounded to six decimals, the price falling back from
the model table to a provider default (so no model or provider can make
the computation fail), and the cost is monotone non-decreasing in both
token counts. -/
theorem C7_cost_model (provider model : String) (i o i2 o2 : ℕ) :
    (calculateEstimatedCost provider model i o).totalCost
      = round6 (((i : ℚ) / 1000000) * (priceFor provider model).input
          + ((o : ℚ) / 1000000) * (priceFor provider model).output) ∧
    (∀ p, pricingTable model.toLower = some p → priceFor provider model = p) ∧
    (pricingTable model.toLower = none →
      priceFor provider model =
        (if provider = "openai" then { input := 0.50, output := 1.50 }
         else if provider = "gemini" then { input := 0.075, output := 0.30 }
         else if provider = "groq" then { input := 0.59, output := 0.79 }
         else { input := 0.50, output := 1.50         : ModelPrice })) ∧
    (i ≤ i2 → o ≤ o2 →
      (calculateEstimatedCost provider model i o).totalCost
        ≤ (calculateEstimatedCost provider model i2 o2).totalCost) := by
  refine ⟨rfl, ?_, ?_, ?_⟩
  · intro p hp
    unfold priceFor
    rw [hp]
  · intro hp
    unfold priceFor
    rw [hp]
  · intro hi ho
    obtain ⟨hin, hout⟩ := priceFor_nonneg provider model
    show round6 _ ≤ round6 _
    apply round6_mono
    have hi2 : (i : ℚ) ≤ (i2 : ℚ) := Nat.cast_le.mpr hi
    have ho2 : (o : ℚ) ≤ (o2 : ℚ) := Nat.cast_le.mpr ho
    gcongr

/-- Witness for C7: doubling the input tokens of a `gpt-4o` call does
not decrease the estimated cost. -/
theorem C7_cost_model_witness :
    (calculateEstimatedCost "openai" "gpt-4o" 1000000 0).totalCost
      ≤ (calculateEstimatedCost "openai" "gpt-4o" 2000000 0).totalCost :=
  (C7_cost_model "openai" "gpt-4o" 1000000 0 2000000 0).2.2.2 (by decide) (le_refl 0)

/-! ## Claim C8 -/

/-- C8: parsing an LLM reply is total; when the reply holds no JSON
blob, or the blob fails to parse, the result is the fallback response:
the raw text as message, a generated audio description, and the action
`{type: null, payload: {}}`. -/
theorem C8_parse_never_fails (jp : String → Option Json) (content : String) :
    (extractJsonBlob content = none → parseLLMResponse jp content = fallbackResponse content) ∧
    (∀ blob, extractJsonBlob content = some blob → jp blob = none →
      parseLLMResponse jp content = fallbackResponse content) ∧
    fallbackResponse content =
      { message := content
        audio_description := generateAudioDescription content
        action := { type := Json.null, payload := Json.obj [] } } := by
  refine ⟨?_, ?_, rfl⟩
  · intro h
    simp [parseLLMResponse, h]
  · intro blob hb hjp
    simp [parseLLMResponse, hb, hjp]

/-- The everywhere-failing parse oracle. -/
def jpNone : String → Option Json := fun _ => none

/-- Witness for C8: a plain-text reply and a reply whose brace blob
fails to parse both fall back to the raw text. -/
theorem C8_parse_never_fails_witness :
    parseLLMResponse jpNone "hola" = fallbackResponse "hola"
      ∧ parseLLMResponse jpNone "x\x7by\x7d" = fallbackResponse "x\x7by\x7d" :=
  ⟨(C8_parse_never_fails jpNone "hola").1 rfl,
   (C8_parse_never_fails jpNone "x\x7by\x7d").2.1 "\x7by\x7d" rfl rfl⟩

/-! ## Claims C10 and C3: cart merge -/

theorem find?_bumpFirstLine {lines : List OrderProduct} {idStr : String} {q price : ℚ}
    (h : lines.any (cartLineMatches idStr) = true) :
    ∃ p, (bumpFirstLine lines idStr q price).find? (cartLineMatches idStr) = some p ∧
      p.valid_price = price := by
  induction lines with
  | nil => simp at h
  | cons a rest ih =>
      by_cases ha : cartLineMatches idStr a = true
      · refine ⟨{ a with qty := a.qty + q, valid_price := price }, ?_, rfl⟩
        have ha2 : cartLineMatches idStr { a with qty := a.qty + q, valid_price := price } = true :=
          ha
        simp [bumpFirstLine, ha, List.find?_cons_of_pos _ ha2]
      · have h2 : rest.any (cartLineMatches idStr) = true := by
          rcases (List.any_eq_true.mp h) with ⟨x, hx, hpx⟩
          rcases List.mem_cons.mp hx with rfl | hx2
          · exact absurd hpx ha
          · exact List.any_eq_true.mpr ⟨x, hx2, hpx⟩
        obtain ⟨p, hp, hpv⟩ := ih h2
        refine ⟨p, ?_, hpv⟩
        simpa [bumpFirstLine, ha, List.find?_cons_of_neg] using hp

theorem find?_mergeCartLine (lines : List OrderProduct) (idStr : String) (q price : ℚ)
    (product : Product) :
    ∃ p, (mergeCartLine lines idStr q price product).find? (cartLineMatches idStr) = some p ∧
      p.valid_price = price := by
  unfold mergeCartLine
  by_cases h : lines.any (cartLineMatches idStr) = true
  · rw [if_pos h]
    exact find?_bumpFirstLine h
  · rw [if_neg h]
    have hn : lines.find? (cartLineMatches idStr) = none := by
      rw [List.find?_eq_none]
      intro x hx hpx
      exact h (List.any_eq_true.mpr ⟨x, hx, hpx⟩)
    refine ⟨newCartLine idStr q price product, ?_, rfl⟩
    rw [List.find?_append, hn]
    simp [newCartLine, cartLineMatches]

/-- C10: a successful `add_to_cart` records the product's current
price — the sale price when positive, the regular price otherwise — as
the line item's `valid_price`, both when a new line is pushed and when
an existing line is merged (the merge overwrites the stored price). -/
theorem C10_valid_price (productsDb : List Product) (ordersDb : List Order)
    (t u fresh pid : String) (product : Product) (args : CartArgs)
    (hargs : args.productId = some pid) (hpid : pid ≠ "")
    (hget : productsGetById productsDb t pid = some product) :
    (addToCart productsDb ordersDb t u fresh args).1.success = true ∧
    ∃ d, (addToCart productsDb ordersDb t u fresh args).1.data = some d ∧
      ∃ line, d.products.find? (cartLineMatches (cartProductIdStr product pid)) = some line ∧
        line.valid_price =
          (if product.price.sale > 0 then product.price.sale else product.price.regular) := by
  obtain ⟨line, hline, hlv⟩ :=
    find?_mergeCartLine
      (match getActiveCart ordersDb t u with
        | some c => c
        | none => newCartFor t u fresh).products
      (cartProductIdStr product pid) (args.quantity.getD 1) (getProductPrice product) product
  unfold addToCart
  rw [hargs]
  simp only [hpid, if_false, hget, if_neg]
  cases hcart : getActiveCart ordersDb t u with
  | some c =>
      have hc := List.find?_some hcart
      have hmem := List.mem_of_find?_eq_some hcart
      simp only [activeCartPred, Bool.and_eq_true, decide_eq_true_eq] at hc
      obtain ⟨y, db2, hrepl, _⟩ :=
        replaceFirstOrder_isSome
          (p := fun o => decide (o.domain = t ∧ o.orderNumber = c.orderNumber))
          (f := fun o =>
            { o with
                products := mergeCartLine c.products (cartProductIdStr product pid)
                  (args.quantity.getD 1) (getProductPrice product) product
                total := orderTotal (mergeCartLine c.products (cartProductIdStr product pid)
                  (args.quantity.getD 1) (getProductPrice product) product) })
          ⟨c, hmem, by simp [hc.1]⟩
      simp only [hcart] at hline
      simp only [updateProducts, hrepl]
      exact ⟨by trivial, _, rfl, line, hline, by rw [hlv]; rfl⟩
  | none =>
      obtain ⟨y, db2, hrepl, _⟩ :=
        replaceFirstOrder_isSome
          (l := ordersDb ++ [newCartFor t u fresh])
          (p := fun o => decide (o.domain = t ∧ o.orderNumber = (newCartFor t u fresh).orderNumber))
          (f := fun o =>
            { o with
                products := mergeCartLine (newCartFor t u fresh).products
                  (cartProductIdStr product pid) (args.quantity.getD 1)
                  (getProductPrice product) product
                total := orderTotal (mergeCartLine (newCartFor t u fresh).products
                  (cartProductIdStr product pid) (args.quantity.getD 1)
                  (getProductPrice product) product) })
          ⟨newCartFor t u fresh, by simp, by simp [newCartFor]⟩
      try simp only [hcart] at hline
      simp only [ordersCreate, updateProducts, hrepl]
      exact ⟨by trivial, _, rfl, line, hline, by rw [hlv]; rfl⟩

/-- Sample product document used to instantiate the cart claims. -/
def sampleProduct : Product :=
  { id := some "p1"
    domain := "d"
    title := "Mesa"
    slug := "mesa"
    price := { regular := 10, sale := 5 }
    is_available := true
    isTrashStatus := some false }

/-- Witness for C10: adding the sample product to an empty store
records its sale price as the line's `valid_price`. -/
theorem C10_valid_price_witness :
    (addToCart [sampleProduct] [] "d" "u" "F1"
        { productId := some "p1", quantity := some 2 }).1.success = true ∧
    ∃ d, (addToCart [sampleProduct] [] "d" "u" "F1"
        { productId := some "p1", quantity := some 2 }).1.data = some d ∧
      ∃ line, d.products.find? (cartLineMatches (cartProductIdStr sampleProduct "p1"))
            = some line ∧
        line.valid_price =
          (if sampleProduct.price.sale > 0 then sampleProduct.price.sale
           else sampleProduct.price.regular) :=
  C10_valid_price [sampleProduct] [] "d" "u" "F1" "p1" sampleProduct
    { productId := some "p1", quantity := some 2 } rfl (by decide) rfl

theorem newCartFor_orderNumber (t u f : String) : (newCartFor t u f).orderNumber = f := rfl

theorem newCartFor_products (t u f : String) : (newCartFor t u f).products = [] := rfl

theorem newCartFor_currency (t u f : String) : (newCartFor t u f).currency = "PEN" := rfl

theorem mergeCartLine_nil (idStr : String) (q price : ℚ) (product : Product) :
    mergeCartLine [] idStr q price product = [newCartLine idStr q price product] := by
  simp [mergeCartLine]

theorem mergeCartLine_bump_single (idStr : String) (q1 q2 price : ℚ) (product : Product) :
    mergeCartLine [newCartLine idStr q1 price product] idStr q2 price product
      = [newCartLine idStr (q1 + q2) price product] := by
  have hm : cartLineMatches idStr (newCartLine idStr q1 price product) = true := by
    simp [cartLineMatches, newCartLine]
  simp only [mergeCartLine, List.any_cons, hm, Bool.true_or, if_true, bumpFirstLine]
  simp [newCartLine]

theorem replaceFirstOrder_fst {p : Order → Bool} {f : Order → Order} :
    ∀ {l : List Order} {o : Order},
      (replaceFirstOrder l p f).1 = some o → ∃ y, o = f y
  | [], o, h => by simp [replaceFirstOrder] at h
  | a :: rest, o, h => by
      by_cases ha : p a = true
      · simp only [replaceFirstOrder, ha, if_true, Option.some.injEq] at h
        exact ⟨a, h.symm⟩
      · simp only [replaceFirstOrder, ha, if_false] at h
        exact replaceFirstOrder_fst (l := rest) h

/-- Characterisation of `addToCart` when no pending cart exists: a new
cart is created under `freshOrderNumber`, holding exactly one line. -/
theorem addToCart_fresh_cart (productsDb : List Product) (ordersDb : List Order)
    (t u fresh pid : String) (product : Product) (q : ℚ)
    (hget : productsGetById productsDb t pid = some product) (hpid : pid ≠ "")
    (hcart : getActiveCart ordersDb t u = none)
    (hfresh : ∀ o ∈ ordersDb, ¬(o.domain = t ∧ o.orderNumber = fresh)) :
    addToCart productsDb ordersDb t u fresh { productId := some pid, quantity := some q } =
      ({ success := true
         data := some
           { message := "Producto " ++ product.title ++ " agregado al carrito"
             orderNumber := fresh
             products := [newCartLine (cartProductIdStr product pid) q
               (getProductPrice product) product]
             total := orderTotal [newCartLine (cartProductIdStr product pid) q
               (getProductPrice product) product]
             currency := "PEN" }
         error := none },
       ordersDb ++ [{ newCartFor t u fresh with
         products := [newCartLine (cartProductIdStr product pid) q
           (getProductPrice product) product]
         total := orderTotal [newCartLine (cartProductIdStr product pid) q
           (getProductPrice product) product] }]) := by
  have hrepl := replaceFirstOrder_append_last (l := ordersDb) (y := newCartFor t u fresh)
    (p := fun o => decide (o.domain = t ∧ o.orderNumber = (newCartFor t u fresh).orderNumber))
    (f := fun o =>
      { o with
          products := mergeCartLine (newCartFor t u fresh).products
            (cartProductIdStr product pid) q (getProductPrice product) product
          total := orderTotal (mergeCartLine (newCartFor t u fresh).products
            (cartProductIdStr product pid) q (getProductPrice product) product) })
    (fun o ho => by simpa using hfresh o ho)
    (by simp [newCartFor])
  unfold addToCart
  simp only [hpid, if_false, hget, hcart, Option.getD_some, ordersCreate, updateProducts, hrepl]
  simp [newCartFor_orderNumber, newCartFor_products, newCartFor_currency, mergeCartLine_nil]

/-- Characterisation of `addToCart` when the user's pending cart is the
last document of the store and is unique for its order number: the line
is merged into that cart and the updated cart is persisted in place. -/
theorem addToCart_last_cart (productsDb : List Product) (pre : List Order) (c : Order)
    (t u fresh pid : String) (product : Product) (q : ℚ)
    (hget : productsGetById productsDb t pid = some product) (hpid : pid ≠ "")
    (hpre : ∀ o ∈ pre, activeCartPred t u o = false)
    (hc : activeCartPred t u c = true)
    (hpreN : ∀ o ∈ pre, ¬(o.domain = t ∧ o.orderNumber = c.orderNumber)) :
    addToCart productsDb (pre ++ [c]) t u fresh { productId := some pid, quantity := some q } =
      ({ success := true
         data := some
           { message := "Producto " ++ product.title ++ " agregado al carrito"
             orderNumber := c.orderNumber
             products := mergeCartLine c.products (cartProductIdStr product pid) q
               (getProductPrice product) product
             total := orderTotal (mergeCartLine c.products (cartProductIdStr product pid) q
               (getProductPrice product) product)
             currency := c.currency }
         error := none },
       pre ++ [{ c with
         products := mergeCartLine c.products (cartProductIdStr product pid) q
           (getProductPrice product) product
         total := orderTotal (mergeCartLine c.products (cartProductIdStr product pid) q
           (getProductPrice product) product) }]) := by
  have hfind : getActiveCart (pre ++ [c]) t u = some c := by
    unfold getActiveCart
    rw [List.find?_append]
    have h1 : pre.find? (activeCartPred t u) = none :=
      List.find?_eq_none.mpr (fun x hx => by simp [hpre x hx])
    rw [h1, List.find?_cons_of_pos _ hc]
    rfl
  have hcd : c.domain = t := by
    have := hc
    simp only [activeCartPred, Bool.and_eq_true, decide_eq_true_eq] at this
    exact this.1
  have hrepl := replaceFirstOrder_append_last (l := pre) (y := c)
    (p := fun o => decide (o.domain = t ∧ o.orderNumber = c.orderNumber))
    (f := fun o =>
      { o with
          products := mergeCartLine c.products (cartProductIdStr product pid) q
            (getProductPrice product) product
          total := orderTotal (mergeCartLine c.products (cartProductIdStr product pid) q
            (getProductPrice product) product) })
    (fun o ho => by simpa using hpreN o ho)
    (by simp [hcd])
  unfold addToCart
  simp only [hpid, if_false, hget, hfind, Option.getD_some, updateProducts, hrepl]

/-- C3: after every `add_to_cart` mutation the persisted order's total
is `Σ(valid_price × qty)` over its line items, and adding the same
product twice with quantities `q1`, `q2` (starting from a user with no
pending cart) leaves exactly one line item for that product with
`qty = q1 + q2` and total `price × (q1 + q2)`, identically for either
order of the two calls. -/
theorem C3_cart_merge (productsDb : List Product) (ordersDb : List Order)
    (t u fresh1 fresh2 pid : String) (product : Product) (q1 q2 : ℚ)
    (hget : productsGetById productsDb t pid = some product) (hpid : pid ≠ "")
    (hcart : getActiveCart ordersDb t u = none)
    (hfresh : ∀ o ∈ ordersDb, ¬(o.domain = t ∧ o.orderNumber = fresh1)) :
    (∀ (db : List Order) (dom onum : String) (ps : List OrderProduct) (o : Order)
      (db2 : List Order), updateProducts db dom onum ps = (some o, db2) →
        o.products = ps ∧ o.total = orderTotal ps) ∧
    (addToCart productsDb
        (addToCart productsDb ordersDb t u fresh1
          { productId := some pid, quantity := some q1 }).2
        t u fresh2 { productId := some pid, quantity := some q2 } =
      ({ success := true
         data := some
           { message := "Producto " ++ product.title ++ " agregado al carrito"
             orderNumber := fresh1
             products := [newCartLine (cartProductIdStr product pid) (q1 + q2)
               (getProductPrice product) product]
             total := orderTotal [newCartLine (cartProductIdStr product pid) (q1 + q2)
               (getProductPrice product) product]
             currency := "PEN" }
         error := none },
       ordersDb ++ [{ newCartFor t u fresh1 with
         products := [newCartLine (cartProductIdStr product pid) (q1 + q2)
           (getProductPrice product) product]
         total := orderTotal [newCartLine (cartProductIdStr product pid) (q1 + q2)
           (getProductPrice product) product] }])) ∧
    orderTotal [newCartLine (cartProductIdStr product pid) (q1 + q2)
        (getProductPrice product) product]
      = getProductPrice product * (q1 + q2) ∧
    addToCart productsDb
        (addToCart productsDb ordersDb t u fresh1
          { productId := some pid, quantity := some q2 }).2
        t u fresh2 { productId := some pid, quantity := some q1 } =
      addToCart productsDb
        (addToCart productsDb ordersDb t u fresh1
          { productId := some pid, quantity := some q1 }).2
        t u fresh2 { productId := some pid, quantity := some q2 } := by
  have hgeneral : ∀ (db : List Order) (dom onum : String) (ps : List OrderProduct) (o : Order)
      (db2 : List Order), updateProducts db dom onum ps = (some o, db2) →
        o.products = ps ∧ o.total = orderTotal ps := by
    intro db dom onum ps o db2 hupd
    have h1 : (replaceFirstOrder db
        (fun o => decide (o.domain = dom ∧ o.orderNumber = onum))
        (fun o => { o with products := ps, total := orderTotal ps })).1 = some o := by
      have := congrArg Prod.fst hupd
      simpa [updateProducts] using this
    obtain ⟨y, rfl⟩ := replaceFirstOrder_fst h1
    exact ⟨rfl, rfl⟩
  have hpre0 : ∀ o ∈ ordersDb, activeCartPred t u o = false :=
    fun o ho => by
      have := List.find?_eq_none.mp hcart o ho
      simpa using this
  have hafterPred : ∀ q : ℚ, activeCartPred t u
      ({ newCartFor t u fresh1 with
         products := [newCartLine (cartProductIdStr product pid) q
           (getProductPrice product) product]
         total := orderTotal [newCartLine (cartProductIdStr product pid) q
           (getProductPrice product) product] }) = true := by
    intro q
    by_cases hu : u.contains '@' = true <;>
      simp [activeCartPred, newCartFor, defaultClientInfo, hu]
  have hstep1 := addToCart_fresh_cart productsDb ordersDb t u fresh1 pid product q1
    hget hpid hcart hfresh
  have hstep1b := addToCart_fresh_cart productsDb ordersDb t u fresh1 pid product q2
    hget hpid hcart hfresh
  have hstep2 := addToCart_last_cart productsDb ordersDb
    ({ newCartFor t u fresh1 with
       products := [newCartLine (cartProductIdStr product pid) q1
         (getProductPrice product) product]
       total := orderTotal [newCartLine (cartProductIdStr product pid) q1
         (getProductPrice product) product] })
    t u fresh2 pid product q2 hget hpid hpre0 (hafterPred q1)
    (fun o ho => by simpa [newCartFor] using hfresh o ho)
  have hstep2b := addToCart_last_cart productsDb ordersDb
    ({ newCartFor t u fresh1 with
       products := [newCartLine (cartProductIdStr product pid) q2
         (getProductPrice product) product]
       total := orderTotal [newCartLine (cartProductIdStr product pid) q2
         (getProductPrice product) product] })
    t u fresh2 pid product q1 hget hpid hpre0 (hafterPred q2)
    (fun o ho => by simpa [newCartFor] using hfresh o ho)
  have hmerge := mergeCartLine_bump_single (cartProductIdStr product pid) q1 q2
    (getProductPrice product) product
  have hmergeb := mergeCartLine_bump_single (cartProductIdStr product pid) q2 q1
    (getProductPrice product) product
  have h21 : (addToCart productsDb ordersDb t u fresh1
        { productId := some pid, quantity := some q1 }).2
      = ordersDb ++ [{ newCartFor t u fresh1 with
          products := [newCartLine (cartProductIdStr product pid) q1
            (getProductPrice product) product]
          total := orderTotal [newCartLine (cartProductIdStr product pid) q1
            (getProductPrice product) product] }] := by
    rw [hstep1]
  have h21b : (addToCart productsDb ordersDb t u fresh1
        { productId := some pid, quantity := some q2 }).2
      = ordersDb ++ [{ newCartFor t u fresh1 with
          products := [newCartLine (cartProductIdStr product pid) q2
            (getProductPrice product) product]
          total := orderTotal [newCartLine (cartProductIdStr product pid) q2
            (getProductPrice product) product] }] := by
    rw [hstep1b]
  have htwo : addToCart productsDb
      (addToCart productsDb ordersDb t u fresh1
        { productId := some pid, quantity := some q1 }).2
      t u fresh2 { productId := some pid, quantity := some q2 } =
      ({ success := true
         data := some
           { message := "Producto " ++ product.title ++ " agregado al carrito"
             orderNumber := fresh1
             products := [newCartLine (cartProductIdStr product pid) (q1 + q2)
               (getProductPrice product) product]
             total := orderTotal [newCartLine (cartProductIdStr product pid) (q1 + q2)
               (getProductPrice product) product]
             currency := "PEN" }
         error := none },
       ordersDb ++ [{ newCartFor t u fresh1 with
         products := [newCartLine (cartProductIdStr product pid) (q1 + q2)
           (getProductPrice product) product]
         total := orderTotal [newCartLine (cartProductIdStr product pid) (q1 + q2)
           (getProductPrice product) product] }]) := by
    rw [h21, hstep2]
    simp [hmerge, newCartFor]
  have htwob : addToCart productsDb
      (addToCart productsDb ordersDb t u fresh1
        { productId := some pid, quantity := some q2 }).2
      t u fresh2 { productId := some pid, quantity := some q1 } =
      ({ success := true
         data := some
           { message := "Producto " ++ product.title ++ " agregado al carrito"
             orderNumber := fresh1
             products := [newCartLine (cartProductIdStr product pid) (q2 + q1)
               (getProductPrice product) product]
             total := orderTotal [newCartLine (cartProductIdStr product pid) (q2 + q1)
               (getProductPrice product) product]
             currency := "PEN" }
         error := none },
       ordersDb ++ [{ newCartFor t u fresh1 with
         products := [newCartLine (cartProductIdStr product pid) (q2 + q1)
           (getProductPrice product) product]
         total := orderTotal [newCartLine (cartProductIdStr product pid) (q2 + q1)
           (getProductPrice product) product] }]) := by
    rw [h21b, hstep2b]
    simp [hmergeb, newCartFor]
  refine ⟨hgeneral, htwo, ?_, ?_⟩
  · simp [orderTotal, newCartLine, zero_add]
  · rw [htwo, htwob, add_comm q2 q1]

/-! ## Claim C6 -/

theorem productsSearch_blank (db : List Product) (dom : String) (limit : Nat) :
    productsSearch db dom "" limit
      = mongoLimit limit
          ((db.filter (fun p => productBaseFilter dom p)).insertionSort productOrderLe) := by
  simp only [productsSearch]
  congr 1
  congr 1
  apply List.filter_congr
  intro p hp
  simp

/-- C6 (amended): on the MongoDB-backed path with the tool enabled, the
result always has shape `{products, count}` with `count` equal to the
number of returned products, even when empty; with an empty or wildcard
query the products are the tenant's available, non-deleted items sorted
ascending by the `order` field and truncated to the requested `limit`
(default 10) — all of them whenever their number does not exceed the
limit (or the limit is 0, which Mongo treats as unlimited). -/
theorem C6_search_product (productsDb : List Product) (cfg : AgentConfig) (t : String)
    (ext : SearchToolResult) (args : SearchArgs) (tc : ToolConfig)
    (hsp : cfg.tools.searchProduct = some tc) (htc : tc.enabled = true)
    (htype : tc.type ≠ some "api") (htype2 : tc.type ≠ some "rag") :
    (∃ d, (searchProductTool productsDb cfg t ext args).data = some d ∧
      (searchProductTool productsDb cfg t ext args).success = true ∧
      d.count = d.products.length) ∧
    ((args.query.getD "" = "" ∨ args.query.getD "" = "*") →
      ∃ d, (searchProductTool productsDb cfg t ext args).data = some d ∧
        d.products = mongoLimit (args.limit.getD 10)
          ((productsDb.filter (fun p => productBaseFilter t p)).insertionSort
            productOrderLe) ∧
        List.Sorted productOrderLe d.products ∧
        (args.limit.getD 10 = 0 →
          d.products.Perm (productsDb.filter (fun p => productBaseFilter t p))) ∧
        ((productsDb.filter (fun p => productBaseFilter t p)).length ≤ args.limit.getD 10 →
          d.products.Perm (productsDb.filter (fun p => productBaseFilter t p)))) := by
  have hred : searchProductTool productsDb cfg t ext args =
      { success := true
        data := some
          { products := productsSearch productsDb t
              (if args.query.getD "" = "" ∨ (args.query.getD "").trim = ""
                  ∨ args.query.getD "" = "*"
               then "" else (args.query.getD "").trim) (args.limit.getD 10)
            count := (productsSearch productsDb t
              (if args.query.getD "" = "" ∨ (args.query.getD "").trim = ""
                  ∨ args.query.getD "" = "*"
               then "" else (args.query.getD "").trim) (args.limit.getD 10)).length } } := by
    unfold searchProductTool
    rw [hsp]
    simp [htc, htype, htype2]
  constructor
  · rw [hred]
    exact ⟨_, rfl, rfl, rfl⟩
  · intro hq
    have hsq : (if args.query.getD "" = "" ∨ (args.query.getD "").trim = ""
          ∨ args.query.getD "" = "*"
        then "" else (args.query.getD "").trim) = "" := by
      rcases hq with h | h <;> simp [h]
    rw [hred, hsq]
    have hsorted : List.Sorted productOrderLe
        ((productsDb.filter (fun p => productBaseFilter t p)).insertionSort
          productOrderLe) :=
      List.sorted_insertionSort productOrderLe _
    have hperm : ((productsDb.filter (fun p => productBaseFilter t p)).insertionSort
        productOrderLe).Perm (productsDb.filter (fun p => productBaseFilter t p)) :=
      List.perm_insertionSort productOrderLe _
    refine ⟨_, rfl, productsSearch_blank productsDb t (args.limit.getD 10), ?_, ?_, ?_⟩
    · rw [productsSearch_blank]
      unfold mongoLimit
      split_ifs
      · exact hsorted
      · exact List.Pairwise.sublist (List.take_sublist _ _) hsorted
    · intro h0
      rw [productsSearch_blank]
      unfold mongoLimit
      rw [if_pos h0]
      exact hperm
    · intro hlen
      rw [productsSearch_blank]
      unfold mongoLimit
      split_ifs
      · exact hperm
      · rw [List.take_of_length_le (by rw [hperm.length_eq]; exact hlen)]
        exact hperm

/-- Configuration with only `search_product` enabled, MongoDB-backed. -/
def sampleConfigC6 : AgentConfig :=
  { tenantId := "d"
    agentId := "a"
    llm := { provider := "openai", model := "gpt-4o" }
    knowledge := {}
    tools := { searchProduct := some { enabled := true } } }

/-- Witness for C6: the sample tenant's search result carries
`{products, count}` with a consistent count. -/
theorem C6_search_product_witness :
    ∃ d, (searchProductTool [sampleProduct] sampleConfigC6 "d" { success := false }
        { query := some "" }).data = some d ∧
      (searchProductTool [sampleProduct] sampleConfigC6 "d" { success := false }
        { query := some "" }).success = true ∧
      d.count = d.products.length :=
  (C6_search_product [sampleProduct] sampleConfigC6 "d" { success := false }
    { query := some "" } { enabled := true } rfl rfl (by decide) (by decide)).1

/-- A catalogue product for the truncation counterexample (no `order`
field, so the sort is trivial). -/
def c6prod : Product :=
  { domain := "d"
    title := "t"
    slug := "s"
    price := { regular := 1, sale := 0 }
    is_available := true
    isTrashStatus := some false }

/-- Counterexample to C6 as stated: with eleven available, non-deleted
items and an empty query, the tool returns only ten products (the
default `limit`), not all of the tenant's items. -/
theorem C6_search_product_counterexample :
    ((searchProductTool (List.replicate 11 c6prod) sampleConfigC6 "d" { success := false }
        { query := some "" }).data.map (fun d => d.products.length)) = some 10 ∧
    ((List.replicate 11 c6prod).filter (fun p => productBaseFilter "d" p)).length = 11 := by
  constructor
  · rfl
  · rfl

/-! ## Claim C5 -/

/-- C5 (amended): a custom tool with a missing `baseUrl` yields a
failed ToolResult and no request; otherwise a request is issued whose
method defaults to `POST`, whose URL substitutes each path placeholder
from the arguments, whose query parameters for `GET` are exactly the
arguments not consumed by a path placeholder — but whose body, for
non-`GET` methods, is the entire argument map, including arguments
consumed by placeholders. -/
theorem C5_custom_tool (f : HttpRequest → Except String Json) (tool : CustomTool)
    (args : List (String × Json)) :
    (tool.baseUrl = "" →
      executeCustomTool f tool args =
        ({ success := false
           error := some ("Custom tool \"" ++ tool.name ++ "\" is missing baseUrl") }, none)) ∧
    (tool.baseUrl ≠ "" → ∃ req, (executeCustomTool f tool args).2 = some req ∧
      req.method = jsOrS tool.method "POST" ∧
      (tool.method = none → req.method = "POST") ∧
      (∀ p, tool.path = some p → p ≠ "" → req.url = tool.baseUrl ++ substPathArgs p args) ∧
      (req.method = "GET" →
        req.body = none ∧
        req.queryParams = args.filterMap (fun kv =>
          if argConsumedByPath tool.path kv.1 then none else some (kv.1, kv.2.toStr))) ∧
      (req.method ≠ "GET" → req.body = some args ∧ req.queryParams = [])) := by
  constructor
  · intro h
    unfold executeCustomTool
    rw [if_pos h]
  · intro h
    refine ⟨customToolRequest tool args, ?_, rfl, ?_, ?_, ?_, ?_⟩
    · unfold executeCustomTool
      rw [if_neg h]
      cases hf : f (customToolRequest tool args) <;> simp [hf]
    · intro hm
      simp [customToolRequest, jsOrS, hm]
    · intro p hp hpne
      simp [customToolRequest, hp, hpne]
    · intro hm
      have hm2 : jsOrS tool.method "POST" = "GET" := hm
      simp only [customToolRequest, hm2, if_pos]
      exact ⟨by trivial, by trivial⟩
    · intro hm
      have hm2 : ¬(jsOrS tool.method "POST" = "GET") := hm
      simp only [customToolRequest, hm2, if_neg, if_false]
      exact ⟨by trivial, by trivial⟩

/-- The custom tool used to instantiate C5: a `POST` endpoint with one
path placeholder. -/
def c5tool : CustomTool :=
  { name := "lookup"
    baseUrl := "http://b"
    path := some "/s/\x7bid\x7d"
    method := some "POST"
    enabled := some true }

/-- The arguments used to instantiate C5. -/
def c5args : List (String × Json) := [("id", Json.str "7"), ("q", Json.str "x")]

/-- The transport oracle used to instantiate C5. -/
def c5fetch : HttpRequest → Except String Json := fun _ => Except.ok Json.null

/-- Witness for C5 (amended): the sample invocation issues a request
whose URL substitutes the placeholder and whose body is the whole
argument map. -/
theorem C5_custom_tool_witness :
    c5tool.baseUrl ≠ "" ∧
    ∃ req, (executeCustomTool c5fetch c5tool c5args).2 = some req ∧
      req.method = jsOrS c5tool.method "POST" ∧
      (c5tool.method = none → req.method = "POST") ∧
      (∀ p, c5tool.path = some p → p ≠ "" →
        req.url = c5tool.baseUrl ++ substPathArgs p c5args) ∧
      (req.method = "GET" →
        req.body = none ∧
        req.queryParams = c5args.filterMap (fun kv =>
          if argConsumedByPath c5tool.path kv.1 then none else some (kv.1, kv.2.toStr))) ∧
      (req.method ≠ "GET" → req.body = some c5args ∧ req.queryParams = []) :=
  ⟨by decide, (C5_custom_tool c5fetch c5tool c5args).2 (by decide)⟩

/-- Counterexample to C5 as stated: for this `POST` tool the argument
`id` is consumed by the path placeholder (the URL becomes
`http://b/s/7`), yet the JSON body still contains it — the body is not
restricted to the arguments left unconsumed. -/
theorem C5_custom_tool_counterexample :
    ∃ req, (executeCustomTool c5fetch c5tool c5args).2 = some req ∧
      req.url = "http://b/s/7" ∧
      argConsumedByPath c5tool.path "id" = true ∧
      req.body = some c5args ∧
      c5args.any (fun kv => kv.1 = "id") = true := by
  refine ⟨_, rfl, ?_, ?_, rfl, ?_⟩
  · rfl
  · rfl
  · rfl

/-! ## Claims C1 and C9: response shaping in the orchestrator -/

theorem inlineSuccess_action_str (jp : String → Option Json) (llm2 s : String)
    (actionPayload : Json) (toolResult : ToolResult) (parsed : AgentResponse) :
    ∃ p, (inlineSuccessResponse jp llm2 s actionPayload toolResult parsed).1.action
        = { type := Json.str s, payload := p } := by
  simp only [inlineSuccessResponse]
  split_ifs with h1 h2 h3 h4 h5 <;>
    first
      | exact ⟨_, rfl⟩
      | (obtain ⟨rfl, -⟩ := h1; exact ⟨_, rfl⟩)
      | (obtain ⟨rfl, -⟩ := h2; exact ⟨_, rfl⟩)
      | (obtain ⟨rfl, -⟩ := h3; exact ⟨_, rfl⟩)
      | (obtain ⟨rfl, -⟩ := h4; exact ⟨_, rfl⟩)
      | (obtain ⟨rfl, -⟩ := h5; exact ⟨_, rfl⟩)

theorem executeAction_action_cases (cfg : AgentConfig) (lsr : List Json)
    (toolExec : String → Json → ToolResult) (jp : String → Option Json) (llm2 : String)
    (parsed : AgentResponse) :
    (executeActionFromResponse cfg lsr toolExec jp llm2 parsed).response.action = nullAction
      ∨ (executeActionFromResponse cfg lsr toolExec jp llm2 parsed).response.action
          = parsed.action
      ∨ ∃ s p, (executeActionFromResponse cfg lsr toolExec jp llm2 parsed).response.action
          = { type := Json.str s, payload := p } := by
  simp only [executeActionFromResponse]
  split
  · right; left; rfl
  · next s payload heq =>
      by_cases hni : optBoolTruthy (toolExec s payload).needsUserInput = true
      · rw [if_pos hni]
        left
        rfl
      · rw [if_neg hni]
        by_cases hs : (toolExec s payload).success = true
        · rw [if_pos hs]
          obtain ⟨p, hp⟩ := inlineSuccess_action_str jp llm2 s
            (if parsed.action.payload.truthy = true then parsed.action.payload
             else Json.obj []) (toolExec s payload) parsed
          right; right
          refine ⟨s, p, ?_⟩
          cases hi : inlineSuccessResponse jp llm2 s
              (if parsed.action.payload.truthy = true then parsed.action.payload
               else Json.obj []) (toolExec s payload) parsed with
          | mk resp n =>
              rw [hi] at hp
              simpa [hi] using hp
        · rw [if_neg hs]
          left
          rfl

theorem toolResultAction_cases (init : ActionObj) (tr : String × ToolResult) :
    toolResultAction init tr = init
      ∨ ∃ s p, toolResultAction init tr = { type := Json.str s, payload := p } := by
  unfold toolResultAction
  split_ifs <;> first | (left; rfl) | (right; exact ⟨_, _, rfl⟩)

theorem foldl_toolResultAction_cases :
    ∀ (l : List (String × ToolResult)) (init : ActionObj),
      l.foldl toolResultAction init = init
        ∨ ∃ s p, l.foldl toolResultAction init = { type := Json.str s, payload := p }
  | [], _ => Or.inl rfl
  | tr :: rest, init => by
      rw [List.foldl_cons]
      rcases foldl_toolResultAction_cases rest (toolResultAction init tr) with h | h
      · rw [h]
        exact toolResultAction_cases init tr
      · exact Or.inr h

theorem genFromToolResults_action_cases (jp : String → Option Json) (llm2 : String)
    (trs : List (String × ToolResult)) :
    (generateResponseFromToolResults jp llm2 trs).response.action
        = (parseLLMResponse jp llm2).action
      ∨ ∃ s p, (generateResponseFromToolResults jp llm2 trs).response.action
          = { type := Json.str s, payload := p } := by
  simp only [generateResponseFromToolResults]
  exact foldl_toolResultAction_cases trs (parseLLMResponse jp llm2).action

/-- C9 (amended): every `AgentResponse` produced by `processMessage`
whose `action.type` is `null` either carries the empty payload or
passes a model-supplied action through verbatim — the parsed action of
the first or of the second provider reply.  The invariant
`action.type == null → action.payload == {}` therefore holds for all
orchestrator-constructed actions, and can only be violated by a parsed
reply that itself pairs a null type with a non-empty payload. -/
theorem C9_null_action_payload (cfg : AgentConfig) (lsr : List Json)
    (toolExec : String → Json → ToolResult) (jp : String → Option Json)
    (llm1 : LLMResponse) (llm2 : String) :
    (processMessage cfg lsr toolExec jp llm1 llm2).response.action.type = Json.null →
      (processMessage cfg lsr toolExec jp llm1 llm2).response.action.payload = Json.obj []
        ∨ (processMessage cfg lsr toolExec jp llm1 llm2).response.action
            = (parseLLMResponse jp llm1.content).action
        ∨ (processMessage cfg lsr toolExec jp llm1 llm2).response.action
            = (parseLLMResponse jp llm2).action := by
  simp only [processMessage]
  cases htc : llm1.toolCalls with
  | nil =>
      by_cases ht : (parseLLMResponse jp llm1.content).action.type.truthy = true
      · rw [if_pos ht]
        intro hnull
        rcases executeAction_action_cases cfg lsr toolExec jp llm2
            (parseLLMResponse jp llm1.content) with h | h | ⟨s, p, h⟩
        · left
          show (executeActionFromResponse cfg lsr toolExec jp llm2
            (parseLLMResponse jp llm1.content)).response.action.payload = Json.obj []
          rw [h]
          rfl
        · right; left
          exact h
        · exfalso
          have : (executeActionFromResponse cfg lsr toolExec jp llm2
              (parseLLMResponse jp llm1.content)).response.action.type = Json.null := hnull
          rw [h] at this
          exact Json.noConfusion this
      · rw [if_neg ht]
        intro _
        right; left
        rfl
  | cons a as =>
      intro hnull
      rcases genFromToolResults_action_cases jp llm2
          ((a :: as).map (fun c => (c.name, toolExec c.name c.arguments))) with h | ⟨s, p, h⟩
      · right; right
        exact h
      · exfalso
        have : (generateResponseFromToolResults jp llm2
            ((a :: as).map (fun c => (c.name, toolExec c.name c.arguments)))).response.action.type
              = Json.null := hnull
        rw [h] at this
        exact Json.noConfusion this

/-- C1 (amended): on the model-issued tool-call path the orchestrator
always performs the second (narration) provider call — two provider
round-trips, message taken from the narration reply — with no
`needsUserInput` short circuit; on the inline-action path, a core-tool
result with `needsUserInput` short-circuits to the tool's clarifying
question with `action = {type: null, payload: {}}` and exactly one
provider call. -/
theorem C1_needs_input_shortcircuit (cfg : AgentConfig) (lsr : List Json)
    (toolExec : String → Json → ToolResult) (jp : String → Option Json)
    (llm1 : LLMResponse) (llm2 : String) :
    (llm1.toolCalls ≠ [] →
      (processMessage cfg lsr toolExec jp llm1 llm2).providerCalls = 2 ∧
      (processMessage cfg lsr toolExec jp llm1 llm2).response.message
        = (parseLLMResponse jp llm2).message) ∧
    (∀ s, llm1.toolCalls = [] →
      (parseLLMResponse jp llm1.content).action.type = Json.str s →
      (s = "search_product" ∨ s = "add_to_cart" ∨ s = "show_product" ∨ s = "get_order") →
      optBoolTruthy (toolExec s
          (inlineActionPayload s (parseLLMResponse jp llm1.content) lsr)).needsUserInput
        = true →
      processMessage cfg lsr toolExec jp llm1 llm2 =
        { response := needsInputResponse
            (toolExec s (inlineActionPayload s (parseLLMResponse jp llm1.content) lsr))
            (parseLLMResponse jp llm1.content)
          providerCalls := 1 } ∧
      (needsInputResponse
          (toolExec s (inlineActionPayload s (parseLLMResponse jp llm1.content) lsr))
          (parseLLMResponse jp llm1.content)).action = nullAction) := by
  constructor
  · intro hne
    simp only [processMessage]
    cases htc : llm1.toolCalls with
    | nil => exact absurd htc hne
    | cons a as => exact ⟨rfl, rfl⟩
  · intro s htc htype hcore hni
    have hs : s ≠ "" := by
      rcases hcore with rfl | rfl | rfl | rfl <;> decide
    have ht : (parseLLMResponse jp llm1.content).action.type.truthy = true := by
      rw [htype]
      simp [Json.truthy, hs]
    have hdisp : inlineDispatch cfg lsr (parseLLMResponse jp llm1.content).action.type
        (if (parseLLMResponse jp llm1.content).action.payload.truthy = true
         then (parseLLMResponse jp llm1.content).action.payload else Json.obj [])
        = some (s, inlineActionPayload s (parseLLMResponse jp llm1.content) lsr) := by
      rw [htype]
      rcases hcore with rfl | rfl | rfl | rfl <;>
        simp [inlineDispatch, inlineActionPayload]
    refine ⟨?_, rfl⟩
    simp only [processMessage, htc]
    rw [if_pos ht]
    simp only [executeActionFromResponse, hdisp]
    rw [if_pos hni]
    rfl

/-- A tool executor that always asks for user input. -/
def toolExecNI : String → Json → ToolResult := fun _ _ =>
  { success := false
    needsUserInput := some true
    question := some "¿Cuál es tu número de orden?"
    error := some "Missing info" }

/-- A tool executor that always fails. -/
def toolExecFail : String → Json → ToolResult := fun _ _ => { success := false }

/-- An inline reply carrying a `get_order` action. -/
def c1content : String := "\x7b\"action\":\x7b\"type\":\"get_order\"\x7d\x7d"

/-- Parse oracle for `c1content`. -/
def jpC1 : String → Option Json := fun s =>
  if s = c1content then
    some (Json.obj [("action", Json.obj [("type", Json.str "get_order")])])
  else none

/-- A first reply that requests one `get_order` tool call. -/
def llmWithToolCall : LLMResponse :=
  { content := "", toolCalls := [{ name := "get_order", arguments := Json.obj [] }] }

/-- Witness for C1 (amended): an inline `get_order` action whose tool
asks for input short-circuits to the clarifying question in one
provider call. -/
theorem C1_needs_input_shortcircuit_witness :
    processMessage sampleConfigC2 [] toolExecNI jpC1 { content := c1content } "x" =
      { response := needsInputResponse
          (toolExecNI "get_order" (inlineActionPayload "get_order"
            (parseLLMResponse jpC1 ({ content := c1content } : LLMResponse).content) []))
          (parseLLMResponse jpC1 ({ content := c1content } : LLMResponse).content)
        providerCalls := 1 } ∧
    (needsInputResponse
        (toolExecNI "get_order" (inlineActionPayload "get_order"
          (parseLLMResponse jpC1 ({ content := c1content } : LLMResponse).content) []))
        (parseLLMResponse jpC1 ({ content := c1content } : LLMResponse).content)).action
      = nullAction :=
  (C1_needs_input_shortcircuit sampleConfigC2 [] toolExecNI jpC1
    { content := c1content } "x").2 "get_order" rfl rfl
    (Or.inr (Or.inr (Or.inr rfl))) rfl

/-- Counterexample to C1 as stated: on the model-issued tool-call path
the executed tool signals `needsUserInput`, yet the orchestrator still
makes the second narration provider call (two round-trips) and the
final message is the narration reply, not the tool's clarifying
question. -/
theorem C1_needs_input_shortcircuit_counterexample :
    optBoolTruthy (toolExecNI "get_order" (Json.obj [])).needsUserInput = true ∧
    (processMessage sampleConfigC2 [] toolExecNI jpNone llmWithToolCall "Listo").providerCalls
      = 2 ∧
    (processMessage sampleConfigC2 [] toolExecNI jpNone llmWithToolCall "Listo").response.message
      = "Listo" ∧
    (toolExecNI "get_order" (Json.obj [])).question = some "¿Cuál es tu número de orden?" ∧
    "Listo" ≠ "¿Cuál es tu número de orden?" :=
  ⟨rfl, rfl, rfl, rfl, by decide⟩

/-- An LLM reply pairing a `null` action type with a non-empty
payload. -/
def c9content : String :=
  "\x7b\"message\":\"hola\",\"action\":\x7b\"type\":null,\"payload\":\x7b\"x\":1\x7d\x7d\x7d"

/-- The JSON value `JSON.parse` yields on `c9content`. -/
def c9json : Json :=
  Json.obj [("message", Json.str "hola"),
    ("action", Json.obj [("type", Json.null),
      ("payload", Json.obj [("x", Json.num 1)])])]

/-- Parse oracle for `c9content`. -/
def jpC9 : String → Option Json := fun s => if s = c9content then some c9json else none

/-- Counterexample to C9 as stated: the model's parsed action
`{type: null, payload: {x: 1}}` is passed through verbatim, so the
final response pairs a `null` action type with a non-empty payload. -/
theorem C9_null_action_payload_counterexample :
    (processMessage sampleConfigC2 [] toolExecFail jpC9
        { content := c9content } "").response.action.type = Json.null ∧
    (processMessage sampleConfigC2 [] toolExecFail jpC9
        { content := c9content } "").response.action.payload
      = Json.obj [("x", Json.num 1)] ∧
    Json.obj [("x", Json.num 1)] ≠ Json.obj [] := by
  refine ⟨rfl, rfl, ?_⟩
  simp

/-- Witness for C9 (amended): a plain-text reply yields a null-typed
action, and the disjunction holds there. -/
theorem C9_null_action_payload_witness :
    (processMessage sampleConfigC2 [] toolExecFail jpNone
        { content := "hola" } "").response.action.payload = Json.obj []
      ∨ (processMessage sampleConfigC2 [] toolExecFail jpNone
          { content := "hola" } "").response.action
          = (parseLLMResponse jpNone ({ content := "hola" } : LLMResponse).content).action
      ∨ (processMessage sampleConfigC2 [] toolExecFail jpNone
          { content := "hola" } "").response.action
          = (parseLLMResponse jpNone "").action :=
  C9_null_action_payload sampleConfigC2 [] toolExecFail jpNone { content := "hola" } "" rfl

/-- Witness for C3: adding the sample product with quantities 2 and 3
produces the same tool result and order store in either order. -/
theorem C3_cart_merge_witness :
    addToCart [sampleProduct]
        (addToCart [sampleProduct] [] "d" "u" "F1"
          { productId := some "p1", quantity := some 3 }).2
        "d" "u" "F2" { productId := some "p1", quantity := some 2 } =
      addToCart [sampleProduct]
        (addToCart [sampleProduct] [] "d" "u" "F1"
          { productId := some "p1", quantity := some 2 }).2
        "d" "u" "F2" { productId := some "p1", quantity := some 3 } :=
  (C3_cart_merge [sampleProduct] [] "d" "u" "F1" "F2" "p1" sampleProduct 2 3
    rfl (by decide) rfl (by simp)).2.2.2

end Sam
